import Mathlib

/-!
# Lab2: start-up, teardown and pre-flight checks of `GameCodeApp`

Shallow embedding of `source/Source.cpp` (`IsOnlyInstance`, `CheckStorage`,
`ReadCPUSpeed`) and `source/Project1/GameCode.cpp` (`GameCodeApp::GameCodeApp`,
`InitInstance`, `LoadStrings`, `OnClose`, `FlashWhileMinimized`).

Calls into Win32, DXUT, the resource cache, Lua and the game are external: what
they answer is read from an environment record, and every such call is logged,
in program order, as an `Event`.  Pointers are modelled by whether they are
non-null.
-/

namespace Lab2

/-! ## Basic types -/

/-- A non-null window handle; `NULL` is `Option.none`. -/
abbrev HWND := Nat

/-- A NUL-terminated narrow or wide C string, without its terminator. -/
abbrev CStr := List Char

/-- The two renderer implementations `InitInstance` distinguishes. -/
inductive Renderer where
  | Renderer_D3D9
  | Renderer_D3D11
  deriving DecidableEq, Repr

/-- External operations, in the order the program performs them. -/
inductive Event where
  -- Source.cpp
  | CreateMutex (name : String)
  | FindWindow (cls : String)
  | ShowWindow (h : HWND)
  | SetFocus (h : HWND)
  | SetForegroundWindow (h : HWND)
  | SetActiveWindow (h : HWND)
  | getdiskfree
  | cout (line : String)
  | RegOpenKeyEx
  | RegQueryValueEx
  -- GameCode.cpp, InitInstance
  | SetCursor
  | RegisterEngineEvents
  | VRegisterGameEvents
  | newResourceFile (development : Bool)
  | newResCache
  | ResCacheInit
  | RegisterLoader (kind : String)
  | LoadAndReturnRootXmlElement (file : String)
  | LuaStateManagerCreate
  | GetHandle (resource : String)
  | ScriptExportsRegister
  | RegisterScriptClass
  | RegisterScriptFunctions
  | newEventManager
  | DXUTInit
  | DXUTCreateWindow
  | DXUTSetWindow (h : HWND)
  | SetWindowText (h : HWND)
  | GetSaveGameDirectory
  | DXUTCreateDevice
  | newRenderer (r : Renderer)
  | VSetBackgroundColor
  | VOnRestore
  | VCreateGameAndView
  | Preload (pattern : String)
  | CheckForJoystick
  -- GameCode.cpp, OnClose
  | delete_pGame
  | DestroyWindow (h : Option HWND)
  | VDestroyNetworkEventForwarder
  | delete_pBaseSocketManager
  | delete_pEventManager
  | UnregisterScriptFunctions
  | ScriptExportsUnregister
  | LuaStateManagerDestroy
  | delete_ResCache
  -- GameCode.cpp, FlashWhileMinimized
  | FlashWindow (invert : Bool)
  | TranslateMessage (message wParam : Nat)
  | DispatchMessage (message wParam : Nat)
  deriving DecidableEq, Repr

/-! ## Source.cpp -/

/-- The Win32 code `ERROR_SUCCESS`. -/
def ERROR_SUCCESS : Nat := 0

/-- What the operating system answers to `IsOnlyInstance`. -/
structure MutexEnv where
  /-- `GetLastError()` right after `CreateMutex(NULL, TRUE, name)`. -/
  lastError : String → Nat
  /-- `FindWindow(cls, NULL)`. -/
  findWindow : String → Option HWND

/-- `bool IsOnlyInstance(LPCTSTR gameTitle)`: the result and the calls made. -/
def IsOnlyInstance (os : MutexEnv) (gameTitle : String) : Bool × List Event :=
  if os.lastError gameTitle ≠ ERROR_SUCCESS then
    match os.findWindow gameTitle with
    | some hWnd =>
      (false, [Event.CreateMutex gameTitle, Event.FindWindow gameTitle,
               Event.ShowWindow hWnd, Event.SetFocus hWnd,
               Event.SetForegroundWindow hWnd, Event.SetActiveWindow hWnd])
    | none => (true, [Event.CreateMutex gameTitle, Event.FindWindow gameTitle])
  else
    (true, [Event.CreateMutex gameTitle])

/-- The `struct _diskfree_t` filled by `_getdiskfree`; its fields are `unsigned`. -/
structure diskfree_t where
  total_clusters : Nat
  avail_clusters : Nat
  sectors_per_cluster : Nat
  bytes_per_sector : Nat
  deriving DecidableEq, Repr

/-- The divisor `diskfree.sectors_per_cluster*diskfree.bytes_per_sector`, a
product of two `unsigned` values, hence taken modulo `2^32`. -/
def clusterBytes (diskfree : diskfree_t) : Nat :=
  (diskfree.sectors_per_cluster * diskfree.bytes_per_sector) % 2 ^ 32

/-- The line `CheckStorage` prints when it fails. -/
def storageFailureLine : String := "CheckStorage Failure : Not enough physical storage."

/-- `bool CheckStorage(const DWORDLONG diskSpaceNeeded)`, on the geometry that
`_getdiskfree` reported.  `none` is the integer division by zero. -/
def CheckStorage (diskfree : diskfree_t) (diskSpaceNeeded : Nat) :
    Option (Bool × List Event) :=
  if clusterBytes diskfree = 0 then none
  else
    let neededClusters := diskSpaceNeeded / clusterBytes diskfree
    if diskfree.avail_clusters < neededClusters then
      some (false, [Event.getdiskfree, Event.cout storageFailureLine])
    else
      some (true, [Event.getdiskfree])

/-- What the registry answers to `ReadCPUSpeed`. -/
structure RegistryEnv where
  /-- The `lError` returned by `RegOpenKeyEx`. -/
  openError : Nat
  /-- The value `RegQueryValueEx` stores into `dwMHz`; `none` when it stores nothing. -/
  mhz : Option Nat

/-- `DWORD ReadCPUSpeed()`: the speed read and the calls made. -/
def ReadCPUSpeed (reg : RegistryEnv) : Nat × List Event :=
  if reg.openError = ERROR_SUCCESS then
    (match reg.mhz with
     | some v => v % 2 ^ 32
     | none => 0,
     [Event.RegOpenKeyEx, Event.RegQueryValueEx])
  else
    (0, [Event.RegOpenKeyEx])

/-! ## GameCode.cpp: data -/

/-- `std::map::operator[]` followed by assignment, on a map kept as a list of
bindings with distinct keys. -/
def mapAssign {κ ν : Type} [DecidableEq κ] (m : List (κ × ν)) (k : κ) (v : ν) :
    List (κ × ν) :=
  (k, v) :: m.filter (fun p => decide (p.1 ≠ k))

/-- Lookup in a `std::map` kept as a list of bindings. -/
def mapFind {κ ν : Type} [DecidableEq κ] (m : List (κ × ν)) (k : κ) : Option ν :=
  (m.find? (fun p => decide (p.1 = k))).map Prod.snd

/-- A child element of the strings file, seen through `Attribute("id")`,
`Attribute("value")` and `Attribute("hotkey")`; `none` is the null pointer. -/
structure TiXmlElement where
  attr_id : Option CStr
  attr_value : Option CStr
  attr_hotkey : Option CStr
  deriving DecidableEq, Repr

/-- The two helpers of `LoadStrings` that are declared outside the sources. -/
structure StringHelpers where
  /-- `AnsiToWideCch(dest, src, cchDestChar)`: the wide string it leaves in
  `dest`, a buffer of `cchDestChar` wide characters. -/
  AnsiToWideCch : CStr → Nat → CStr
  /-- `MapCharToKeycode(c)`. -/
  MapCharToKeycode : Char → Nat

/-- The character `*p` at the start of a C string: the terminator when it is empty. -/
def firstChar (p : CStr) : Char :=
  p.headD (Char.ofNat 0)

/-- The members of `GameCodeApp` the modelled functions read or write, and the
window handle that `GetHwnd()` returns.  A pointer member is `true` when it is
non-null. -/
structure GameCodeApp where
  m_hInstance : Option Nat
  m_pGame : Bool
  m_screenSize : Nat × Nat
  m_iColorDepth : Nat
  m_bIsRunning : Bool
  m_bIsEditorRunning : Bool
  m_pEventManager : Bool
  m_ResCache : Bool
  m_pNetworkEventForwarder : Bool
  m_pBaseSocketManager : Bool
  m_bQuitRequested : Bool
  m_bQuitting : Bool
  m_HasModalDialog : Nat
  m_Renderer : Option Renderer
  m_textResource : List (CStr × CStr)
  m_hotkeys : List (CStr × Nat)
  hwnd : Option HWND
  deriving DecidableEq, Repr

/-- `GameCodeApp::GameCodeApp()`. -/
def GameCodeApp.GameCodeApp : GameCodeApp where
  m_hInstance := none
  m_pGame := false
  m_screenSize := (0, 0)
  m_iColorDepth := 32
  m_bIsRunning := false
  m_bIsEditorRunning := false
  m_pEventManager := false
  m_ResCache := false
  m_pNetworkEventForwarder := false
  m_pBaseSocketManager := false
  m_bQuitRequested := false
  m_bQuitting := false
  m_HasModalDialog := 0
  m_Renderer := none
  m_textResource := []
  m_hotkeys := []
  hwnd := none

/-- Everything outside the program that `InitInstance` consults. -/
structure Env where
  /-- `VGetGameTitle()`. -/
  title : String
  os : MutexEnv
  /-- The geometry `_getdiskfree` reports. -/
  disk : diskfree_t
  registry : RegistryEnv
  /-- `m_Options.m_useDevelopmentDirectories`. -/
  useDevelopmentDirectories : Bool
  /-- `m_ResCache->Init()`. -/
  cacheInit : Bool
  /-- `XmlResourceLoader::LoadAndReturnRootXmlElement(file)`: the children of
  the root, `none` when the root is null. -/
  xml : String → Option (List TiXmlElement)
  /-- `AnsiToWideCch` and `MapCharToKeycode`. -/
  ext : StringHelpers
  /-- `LuaStateManager::Create()`. -/
  luaCreate : Bool
  /-- Whether `GCC_NEW EventManager(...)` is non-null. -/
  eventManager : Bool
  /-- `GetHwnd()` once `DXUTCreateWindow` or `DXUTSetWindow` has run. -/
  hwnd : Option HWND
  /-- `GetRendererImpl()`. -/
  rendererImpl : Renderer
  /-- Whether `VCreateGameAndView()` is non-null. -/
  game : Bool

/-! ## GameCode.cpp: operations -/

/-- The body of the `for` loop of `LoadStrings`, for one child element. -/
def LoadStrings_elem (ext : StringHelpers) (a : GameCodeApp)
    (pElem : TiXmlElement) : GameCodeApp :=
  match pElem.attr_id, pElem.attr_value with
  | some pKey, some pText =>
    let wideKey := ext.AnsiToWideCch pKey 64
    let wideText := ext.AnsiToWideCch pText 1024
    let a := { a with m_textResource := mapAssign a.m_textResource wideKey wideText }
    match pElem.attr_hotkey with
    | some pHotkey =>
      { a with m_hotkeys :=
          mapAssign a.m_hotkeys wideKey (ext.MapCharToKeycode (firstChar pHotkey)) }
    | none => a
  | _, _ => a

/-- `bool GameCodeApp::LoadStrings(std::string language)`: the result, the new
state and the calls made.  `GCC_ERROR` expands to a statement without effect. -/
def LoadStrings (xml : String → Option (List TiXmlElement))
    (ext : StringHelpers) (language : String) (a : GameCodeApp) :
    Bool × GameCodeApp × List Event :=
  let languageFile := "Strings\\" ++ language ++ ".xml"
  match xml languageFile with
  | none => (false, a, [Event.LoadAndReturnRootXmlElement languageFile])
  | some children =>
    (true, children.foldl (LoadStrings_elem ext) a,
      [Event.LoadAndReturnRootXmlElement languageFile])

/-- Modelled from the spec: the constant `MEGABYTE` is not defined in the
sources; the megabyte of the 10 MB disk requirement, 1024 * 1024 bytes. -/
def MEGABYTE : Nat := 1024 * 1024

/-- `bool GameCodeApp::InitInstance(HINSTANCE hInstance, LPWSTR lpCmdLine, HWND hWnd)`
with the screen size it stores: the result, the new state and the calls made,
in order.  `debug` tells whether `_DEBUG` is defined, in which case the instance
check is compiled out.  `none` is the division by zero inside `CheckStorage`.
`GCC_ERROR` expands to a statement without effect. -/
def InitInstance (debug : Bool) (env : Env) (hInstance : Nat) (hWnd : Option HWND)
    (screenWidth screenHeight : Nat) (a : GameCodeApp) :
    Option (Bool × GameCodeApp × List Event) :=
  let guard := if debug then (true, []) else IsOnlyInstance env.os env.title
  if guard.1 = false then some (false, a, guard.2) else
  let t := guard.2 ++ [Event.SetCursor]
  match CheckStorage env.disk (10 * MEGABYTE) with
  | none => none
  | some (false, evStorage) => some (false, a, t ++ evStorage)
  | some (true, evStorage) =>
  let t := t ++ evStorage
  let thisCPU := ReadCPUSpeed env.registry
  let t := t ++ thisCPU.2
  if thisCPU.1 < 1300 then some (false, a, t) else
  let a := { a with m_hInstance := some hInstance }
  let t := t ++ [Event.RegisterEngineEvents, Event.VRegisterGameEvents,
    Event.newResourceFile (a.m_bIsEditorRunning || env.useDevelopmentDirectories),
    Event.newResCache, Event.ResCacheInit]
  let a := { a with m_ResCache := true }
  if env.cacheInit = false then some (false, a, t) else
  let t := t ++ [Event.RegisterLoader "WAV", Event.RegisterLoader "OGG",
    Event.RegisterLoader "DDS", Event.RegisterLoader "JPG", Event.RegisterLoader "Xml",
    Event.RegisterLoader "SdkMesh", Event.RegisterLoader "Script"]
  let strings := LoadStrings env.xml env.ext "English" a
  let a := strings.2.1
  let t := t ++ strings.2.2
  if strings.1 = false then some (false, a, t) else
  let t := t ++ [Event.LuaStateManagerCreate]
  if env.luaCreate = false then some (false, a, t) else
  let t := t ++ [Event.GetHandle "SCRIPT_PREINIT_FILE", Event.ScriptExportsRegister,
    Event.RegisterScriptClass, Event.RegisterScriptFunctions, Event.newEventManager]
  let a := { a with m_pEventManager := env.eventManager }
  if a.m_pEventManager = false then some (false, a, t) else
  let t := t ++ [Event.DXUTInit,
    match hWnd with
    | none => Event.DXUTCreateWindow
    | some h => Event.DXUTSetWindow h]
  let a := { a with hwnd := env.hwnd }
  match a.hwnd with
  | none => some (false, a, t)
  | some h =>
  let a := { a with m_screenSize := (screenWidth, screenHeight),
                    m_Renderer := some env.rendererImpl }
  let t := t ++ [Event.SetWindowText h, Event.GetSaveGameDirectory, Event.DXUTCreateDevice,
    Event.newRenderer env.rendererImpl, Event.VSetBackgroundColor, Event.VOnRestore,
    Event.VCreateGameAndView]
  let a := { a with m_pGame := env.game }
  if a.m_pGame = false then some (false, a, t) else
  let t := t ++ [Event.Preload "*.ogg", Event.Preload "*.dds", Event.Preload "*.jpg"]
  let t := t ++ (if env.rendererImpl = Renderer.Renderer_D3D11
    then [Event.Preload "*.sdkmesh"] else [])
  let t := t ++ [Event.CheckForJoystick]
  let a := { a with m_bIsRunning := true }
  some (true, a, t)

/-- Modelled from the spec: the macro `SAFE_DELETE(p)` is not in the sources.
It is the null-safety check of the teardown: it deletes `p` when `p` is
non-null, is a no-op when the subsystem was never constructed, and leaves `p`
null.  The result is the new pointer and the deletion performed, if any. -/
def SAFE_DELETE (p : Bool) (deletion : Event) : Bool × List Event :=
  (false, if p then [deletion] else [])

/-- The subsystems `OnClose` tears down, in its order. -/
inductive Subsystem where
  | game
  | window
  | networkEventForwarder
  | socketManager
  | eventManager
  | scriptFunctions
  | scriptExports
  | luaState
  | resCache
  deriving DecidableEq, Repr

/-- The process-wide scripting state that `OnClose` tears down through static
calls; it is not held in members of `GameCodeApp`. -/
structure Scripting where
  /-- The script functions of `BaseScriptComponent` are registered. -/
  scriptFunctions : Bool
  /-- The functions of `ScriptExports` are registered. -/
  scriptExports : Bool
  /-- The `LuaStateManager` singleton exists. -/
  luaState : Bool
  deriving DecidableEq, Repr

/-- Modelled from the spec: the bodies of `DestroyWindow`,
`VDestroyNetworkEventForwarder`, `BaseScriptComponent::UnregisterScriptFunctions`,
`ScriptExports::Unregister` and `LuaStateManager::Destroy` are not in the
sources, nor is the macro `SAFE_DELETE`.  Each destroy step destroys its
subsystem when that subsystem was constructed and is a no-op, not an error,
when it was never constructed; afterwards the subsystem is gone.  The result is
the destroy operation performed by a step on a subsystem that is `live`. -/
def destroyStep (live : Bool) (s : Subsystem) : List Subsystem :=
  if live then [s] else []

/-- What `OnClose` gives back and does. -/
structure CloseResult where
  /-- The `LRESULT` returned. -/
  result : Int
  /-- The `GameCodeApp` afterwards. -/
  app : GameCodeApp
  /-- The scripting state afterwards. -/
  scripting : Scripting
  /-- The calls made, in order; a `delete` appears when `SAFE_DELETE` performs it. -/
  calls : List Event
  /-- The destroy operations performed, in order. -/
  destroyed : List Subsystem

/-- `LRESULT GameCodeApp::OnClose()`, statement by statement. -/
def OnClose (a : GameCodeApp) (sc : Scripting) : CloseResult :=
  -- SAFE_DELETE(m_pGame);
  let d := SAFE_DELETE a.m_pGame Event.delete_pGame
  let gone : List Subsystem := destroyStep a.m_pGame Subsystem.game
  let a : GameCodeApp := { a with m_pGame := d.1 }
  let t : List Event := d.2
  -- DestroyWindow(GetHwnd());
  let t : List Event := t ++ [Event.DestroyWindow a.hwnd]
  let gone : List Subsystem := gone ++ destroyStep a.hwnd.isSome Subsystem.window
  let a : GameCodeApp := { a with hwnd := none }
  -- VDestroyNetworkEventForwarder();
  let t : List Event := t ++ [Event.VDestroyNetworkEventForwarder]
  let gone : List Subsystem := gone ++ destroyStep a.m_pNetworkEventForwarder Subsystem.networkEventForwarder
  let a : GameCodeApp := { a with m_pNetworkEventForwarder := false }
  -- SAFE_DELETE(m_pBaseSocketManager);
  let d := SAFE_DELETE a.m_pBaseSocketManager Event.delete_pBaseSocketManager
  let gone : List Subsystem := gone ++ destroyStep a.m_pBaseSocketManager Subsystem.socketManager
  let a : GameCodeApp := { a with m_pBaseSocketManager := d.1 }
  let t : List Event := t ++ d.2
  -- SAFE_DELETE(m_pEventManager);
  let d := SAFE_DELETE a.m_pEventManager Event.delete_pEventManager
  let gone : List Subsystem := gone ++ destroyStep a.m_pEventManager Subsystem.eventManager
  let a : GameCodeApp := { a with m_pEventManager := d.1 }
  let t : List Event := t ++ d.2
  -- BaseScriptComponent::UnregisterScriptFunctions();
  let t : List Event := t ++ [Event.UnregisterScriptFunctions]
  let gone : List Subsystem := gone ++ destroyStep sc.scriptFunctions Subsystem.scriptFunctions
  let sc : Scripting := { sc with scriptFunctions := false }
  -- ScriptExports::Unregister();
  let t : List Event := t ++ [Event.ScriptExportsUnregister]
  let gone : List Subsystem := gone ++ destroyStep sc.scriptExports Subsystem.scriptExports
  let sc : Scripting := { sc with scriptExports := false }
  -- LuaStateManager::Destroy();
  let t : List Event := t ++ [Event.LuaStateManagerDestroy]
  let gone : List Subsystem := gone ++ destroyStep sc.luaState Subsystem.luaState
  let sc : Scripting := { sc with luaState := false }
  -- SAFE_DELETE(m_ResCache);
  let d := SAFE_DELETE a.m_ResCache Event.delete_ResCache
  let gone : List Subsystem := gone ++ destroyStep a.m_ResCache Subsystem.resCache
  let a : GameCodeApp := { a with m_ResCache := d.1 }
  let t : List Event := t ++ d.2
  -- return 0;
  { result := 0, app := a, scripting := sc, calls := t, destroyed := gone }

/-- The Win32 `MSG` fields that `FlashWhileMinimized` inspects. -/
structure MSG where
  message : Nat
  wParam : Nat
  deriving DecidableEq, Repr

/-- The Win32 message code `WM_SYSCOMMAND`. -/
def WM_SYSCOMMAND : Nat := 0x0112

/-- The Win32 system command `SC_CLOSE`. -/
def SC_CLOSE : Nat := 0xF060

/-- One turn of the `while (true)` loop of `FlashWhileMinimized`, as decided by
the outside world. -/
inductive Poll where
  /-- `PeekMessage` delivered `msg`; afterwards `IsIconic(GetHwnd())` answers `iconic`. -/
  | message (msg : MSG) (iconic : Bool)
  /-- `PeekMessage` delivered nothing and `timeGetTime()` answers `now`. -/
  | idle (now : Nat)
  deriving DecidableEq, Repr

/-- The `while (true)` loop of `FlashWhileMinimized`, run on the turns given:
whether the loop was left through `break`, and the calls made.  When the turns
run out the loop is still spinning. -/
def flashLoop (then_ : Nat) : List Poll → Bool × List Event
  | [] => (false, [])
  | Poll.message msg iconic :: rest =>
    let t := if msg.message ≠ WM_SYSCOMMAND ∨ msg.wParam ≠ SC_CLOSE
      then [Event.TranslateMessage msg.message msg.wParam,
            Event.DispatchMessage msg.message msg.wParam]
      else []
    if iconic = false then (true, t ++ [Event.FlashWindow false])
    else
      let r := flashLoop then_ rest
      (r.1, t ++ r.2)
  | Poll.idle now :: rest =>
    let timeSpan := if now > then_ then now - then_ else then_ - now
    if timeSpan > 1000 then
      let r := flashLoop now rest
      (r.1, Event.FlashWindow true :: r.2)
    else flashLoop then_ rest

/-- `void GameCodeApp::FlashWhileMinimized()`: whether it returned, and the
calls made.  `iconic` is `IsIconic(GetHwnd())` on entry and `now` the first
`timeGetTime()`. -/
def FlashWhileMinimized (a : GameCodeApp) (iconic : Bool) (now : Nat)
    (polls : List Poll) : Bool × List Event :=
  match a.hwnd with
  | none => (true, [])
  | some _ =>
    if iconic then
      let r := flashLoop now polls
      (r.1, Event.FlashWindow true :: r.2)
    else (true, [])

/-! ## Vocabulary of the start-up properties -/

/-- The steps of `InitInstance` that can make it fail, in program order. -/
inductive Step where
  | instanceGuard
  | storage
  | cpuSpeed
  | cacheInit
  | loadStrings
  | luaCreate
  | eventManager
  | windowHandle
  | gameCreation
  deriving DecidableEq, Repr

/-- The order in which `InitInstance` takes its failable steps. -/
def stepOrder : List Step :=
  [Step.instanceGuard, Step.storage, Step.cpuSpeed, Step.cacheInit, Step.loadStrings,
   Step.luaCreate, Step.eventManager, Step.windowHandle, Step.gameCreation]

/-- Whether a step succeeds in the environment, judged by the very test
`InitInstance` applies to it.  The instance guard cannot fail where `_DEBUG`
compiles it out. -/
def stepOk (debug : Bool) (env : Env) : Step → Bool
  | Step.instanceGuard => debug || (IsOnlyInstance env.os env.title).1
  | Step.storage => (CheckStorage env.disk (10 * MEGABYTE)).map Prod.fst == some true
  | Step.cpuSpeed => decide (¬ (ReadCPUSpeed env.registry).1 < 1300)
  | Step.cacheInit => env.cacheInit
  | Step.loadStrings =>
    (LoadStrings env.xml env.ext "English" GameCodeApp.GameCodeApp).1
  | Step.luaCreate => env.luaCreate
  | Step.eventManager => env.eventManager
  | Step.windowHandle => env.hwnd.isSome
  | Step.gameCreation => env.game

/-- The first step, in program order, that fails; `none` when all succeed. -/
def firstFailure (debug : Bool) (env : Env) : Option Step :=
  stepOrder.find? (fun s => !stepOk debug env s)

/-- The failable step an external call belongs to: the call that opens it. -/
def Event.step : Event → Option Step
  | Event.CreateMutex _ => some Step.instanceGuard
  | Event.getdiskfree => some Step.storage
  | Event.RegOpenKeyEx => some Step.cpuSpeed
  | Event.ResCacheInit => some Step.cacheInit
  | Event.LoadAndReturnRootXmlElement _ => some Step.loadStrings
  | Event.LuaStateManagerCreate => some Step.luaCreate
  | Event.newEventManager => some Step.eventManager
  | Event.DXUTCreateWindow => some Step.windowHandle
  | Event.DXUTSetWindow _ => some Step.windowHandle
  | Event.VCreateGameAndView => some Step.gameCreation
  | _ => none

/-- The failable steps taken in a run, in order. -/
def stepsTaken (t : List Event) : List Step :=
  t.filterMap Event.step

/-- The failable steps up to and including `s`, as compiled: without the
instance guard under `_DEBUG`. -/
def stepsThrough (debug : Bool) (s : Step) : List Step :=
  ((stepOrder.takeWhile (fun x => decide (x ≠ s))) ++ [s]).filter
    (fun x => !(debug && decide (x = Step.instanceGuard)))

/-- The teardown operations: the calls `OnClose` is made of. -/
def Event.isDestroy : Event → Bool
  | Event.delete_pGame => true
  | Event.DestroyWindow _ => true
  | Event.VDestroyNetworkEventForwarder => true
  | Event.delete_pBaseSocketManager => true
  | Event.delete_pEventManager => true
  | Event.UnregisterScriptFunctions => true
  | Event.ScriptExportsUnregister => true
  | Event.LuaStateManagerDestroy => true
  | Event.delete_ResCache => true
  | _ => false

/-- The lines a run has written to report something. -/
def reported (t : List Event) : List String :=
  t.filterMap (fun e => match e with
    | Event.cout line => some line
    | _ => none)

/-- The calls of the instance check as compiled: none under `_DEBUG`. -/
def guardEvents (debug : Bool) (env : Env) : List Event :=
  if debug = true then [] else (IsOnlyInstance env.os env.title).2

/-- The calls `InitInstance` makes for one failable step: from the end of the
previous step to the test that can fail this one. -/
def stepCalls (debug : Bool) (env : Env) (hWnd : Option HWND) : Step → List Event
  | Step.instanceGuard => guardEvents debug env
  | Step.storage =>
    Event.SetCursor :: ((CheckStorage env.disk (10 * MEGABYTE)).map (fun r => r.2)).getD []
  | Step.cpuSpeed => (ReadCPUSpeed env.registry).2
  | Step.cacheInit =>
    [Event.RegisterEngineEvents, Event.VRegisterGameEvents,
     Event.newResourceFile env.useDevelopmentDirectories, Event.newResCache,
     Event.ResCacheInit]
  | Step.loadStrings =>
    [Event.RegisterLoader "WAV", Event.RegisterLoader "OGG", Event.RegisterLoader "DDS",
     Event.RegisterLoader "JPG", Event.RegisterLoader "Xml", Event.RegisterLoader "SdkMesh",
     Event.RegisterLoader "Script", Event.LoadAndReturnRootXmlElement "Strings\\English.xml"]
  | Step.luaCreate => [Event.LuaStateManagerCreate]
  | Step.eventManager =>
    [Event.GetHandle "SCRIPT_PREINIT_FILE", Event.ScriptExportsRegister,
     Event.RegisterScriptClass, Event.RegisterScriptFunctions, Event.newEventManager]
  | Step.windowHandle =>
    [Event.DXUTInit,
     match hWnd with
     | none => Event.DXUTCreateWindow
     | some h => Event.DXUTSetWindow h]
  | Step.gameCreation =>
    match env.hwnd with
    | none => []
    | some h =>
      [Event.SetWindowText h, Event.GetSaveGameDirectory, Event.DXUTCreateDevice,
       Event.newRenderer env.rendererImpl, Event.VSetBackgroundColor, Event.VOnRestore,
       Event.VCreateGameAndView]

/-- The calls of the steps up to and including `s`, in the fixed order, and
nothing after them. -/
def callsThrough (debug : Bool) (env : Env) (hWnd : Option HWND) (s : Step) : List Event :=
  ((stepOrder.takeWhile (fun x => decide (x ≠ s)) ++ [s]).map (stepCalls debug env hWnd)).flatten

/-- The fresh `GameCodeApp` once the resource cache has been constructed. -/
def cacheBuilt (hInstance : Nat) : GameCodeApp :=
  { GameCodeApp.GameCodeApp with m_hInstance := some hInstance, m_ResCache := true }

/-- The state once `LoadStrings` has filled the two maps. -/
def stringsLoaded (env : Env) (hInstance : Nat) : GameCodeApp :=
  (LoadStrings env.xml env.ext "English" (cacheBuilt hInstance)).2.1

/-- The state once the event manager has been created as well. -/
def eventManagerBuilt (env : Env) (hInstance : Nat) : GameCodeApp :=
  { stringsLoaded env hInstance with m_pEventManager := true }

/-- What the steps completed before `s` have constructed, when `s` is the first
step to fail: nothing before the cache is created; the cache from then on; the
loaded strings after `LoadStrings`; the event manager after its creation; the
window, the screen size and the renderer when only the game creation fails. -/
def stateAtFailure (env : Env) (hInstance screenWidth screenHeight : Nat) :
    Step → GameCodeApp
  | Step.instanceGuard => GameCodeApp.GameCodeApp
  | Step.storage => GameCodeApp.GameCodeApp
  | Step.cpuSpeed => GameCodeApp.GameCodeApp
  | Step.cacheInit => cacheBuilt hInstance
  | Step.loadStrings => cacheBuilt hInstance
  | Step.luaCreate => stringsLoaded env hInstance
  | Step.eventManager => stringsLoaded env hInstance
  | Step.windowHandle => eventManagerBuilt env hInstance
  | Step.gameCreation =>
    { eventManagerBuilt env hInstance with hwnd := env.hwnd,
                                           m_screenSize := (screenWidth, screenHeight),
                                           m_Renderer := some env.rendererImpl }

/-- Helpers that copy what fits the buffer and map a character to its code. -/
def sampleHelpers : StringHelpers :=
  ⟨fun s n => s.take (n - 1), fun c => c.toNat⟩

/-- An environment in which every step of `InitInstance` succeeds: first
instance, 5000 free clusters of 4096 bytes, a 2400 MHz CPU, a strings file with
one complete and one incomplete entry. -/
def sampleEnv : Env where
  title := "Raingame"
  os := ⟨fun _ => ERROR_SUCCESS, fun _ => none⟩
  disk := ⟨10000, 5000, 8, 512⟩
  registry := ⟨ERROR_SUCCESS, some 2400⟩
  useDevelopmentDirectories := false
  cacheInit := true
  xml := fun _ => some [⟨some ['O', 'K'], some ['O', 'K'], some ['O']⟩,
                        ⟨some ['B', 'A', 'D'], none, none⟩]
  ext := sampleHelpers
  luaCreate := true
  eventManager := true
  hwnd := some 7
  rendererImpl := Renderer.Renderer_D3D11
  game := true

/-- An environment that differs from `sampleEnv` by a 1000 MHz CPU. -/
def slowCpuEnv : Env := { sampleEnv with registry := ⟨ERROR_SUCCESS, some 1000⟩ }

/-- An environment that differs from `sampleEnv` by a disk with 50 free clusters. -/
def lowDiskEnv : Env := { sampleEnv with disk := ⟨10000, 50, 8, 512⟩ }

/-- An environment that differs from `sampleEnv` by a strings file that is missing. -/
def noStringsEnv : Env := { sampleEnv with xml := fun _ => none }

/-- An environment that differs from `sampleEnv` by a resource cache that fails to open. -/
def noCacheEnv : Env := { sampleEnv with cacheInit := false }

/-- The calls `OnClose` makes whatever the state: `OnClose` itself does not
guard them by a null test. -/
def unguardedTeardown (hwnd : Option HWND) : List Event :=
  [Event.DestroyWindow hwnd, Event.VDestroyNetworkEventForwarder,
   Event.UnregisterScriptFunctions, Event.ScriptExportsUnregister,
   Event.LuaStateManagerDestroy]

/-- The state with no subsystem constructed: the owned pointers null and no window. -/
def unbuilt (a : GameCodeApp) : GameCodeApp :=
  { a with m_pGame := false, m_pBaseSocketManager := false, m_pEventManager := false,
           m_ResCache := false, m_pNetworkEventForwarder := false, hwnd := none }

/-- No scripting state: nothing registered, no Lua state. -/
def noScripting : Scripting :=
  ⟨false, false, false⟩

/-- The scripting state of a running game: everything registered, Lua state alive. -/
def fullScripting : Scripting :=
  ⟨true, true, true⟩

/-- Whether the message is the close system command. -/
def isCloseCommand (msg : MSG) : Bool :=
  msg.message == WM_SYSCOMMAND && msg.wParam == SC_CLOSE

/-- The messages `PeekMessage` delivers before the loop is left. -/
def retrieved : List Poll → List MSG
  | [] => []
  | Poll.message msg iconic :: rest => msg :: (if iconic then retrieved rest else [])
  | Poll.idle _ :: rest => retrieved rest

/-- The message of a `DispatchMessage` call. -/
def Event.dispatched : Event → Option MSG
  | Event.DispatchMessage message wParam => some ⟨message, wParam⟩
  | _ => none

/-- The message of a `TranslateMessage` call. -/
def Event.translated : Event → Option MSG
  | Event.TranslateMessage message wParam => some ⟨message, wParam⟩
  | _ => none

/-- The last child, in document order, that satisfies `p`. -/
def lastChild (p : TiXmlElement → Bool) (children : List TiXmlElement) :
    Option TiXmlElement :=
  children.reverse.find? p

/-- Whether the attributes of a child fit the buffers of `LoadStrings`: an id
shorter than 64 characters and a value shorter than 1024. -/
def fitsBuffers (e : TiXmlElement) : Bool :=
  (match e.attr_id with
   | some i => decide (i.length < 64)
   | none => true) &&
  (match e.attr_value with
   | some v => decide (v.length < 1024)
   | none => true)

/-- A strings file with one complete entry and one entry without a value. -/
def sampleChildren : List TiXmlElement :=
  [⟨some ['O', 'K'], some ['O', 'K'], some ['O']⟩, ⟨some ['B', 'A', 'D'], none, none⟩]

/-- A state in which the owned subsystems, the forwarder and the window exist. -/
def builtApp : GameCodeApp :=
  { GameCodeApp.GameCodeApp with m_pGame := true, m_pBaseSocketManager := true,
                                 m_pEventManager := true, m_ResCache := true,
                                 m_pNetworkEventForwarder := true,
                                 hwnd := some 7, m_bIsRunning := true }

/-- Four turns of the flash loop: a close command, an idle turn after 1500 ms,
an ordinary message, and a message after which the window is no longer iconic. -/
def samplePolls : List Poll :=
  [Poll.message ⟨WM_SYSCOMMAND, SC_CLOSE⟩ true, Poll.idle 1500,
   Poll.message ⟨5, 5⟩ true, Poll.message ⟨6, 6⟩ false]

/-! ## Theorems on Source.cpp -/

/-- C3 (as stated, refuted): with the mutex already existing (`GetLastError` is
`ERROR_ALREADY_EXISTS`, 183) but no window found for the title, `IsOnlyInstance`
returns `true`, not `false`. -/
theorem IsOnlyInstance_true_though_mutex_existed :
    (⟨fun _ => 183, fun _ => none⟩ : MutexEnv).lastError "Raingame" ≠ ERROR_SUCCESS ∧
    IsOnlyInstance ⟨fun _ => 183, fun _ => none⟩ "Raingame" =
      (true, [Event.CreateMutex "Raingame", Event.FindWindow "Raingame"]) := by
  constructor <;> decide

/-- C3 (amended): for every title, `IsOnlyInstance` returns `false` exactly when
`GetLastError` is not `ERROR_SUCCESS` after `CreateMutex` and `FindWindow` finds
a window for the title; it returns `true` otherwise.  On the `false` path the
window found is shown normal, focused, brought to the foreground and activated,
in this order, and nothing else is done after the lookup. -/
theorem IsOnlyInstance_false_iff (os : MutexEnv) (title : String) :
    ((IsOnlyInstance os title).1 = false ↔
        os.lastError title ≠ ERROR_SUCCESS ∧ (os.findWindow title).isSome = true) ∧
    ((IsOnlyInstance os title).1 = true ↔
        ¬ (os.lastError title ≠ ERROR_SUCCESS ∧ (os.findWindow title).isSome = true)) ∧
    ((IsOnlyInstance os title).1 = false →
        ∃ hWnd, os.findWindow title = some hWnd ∧
          (IsOnlyInstance os title).2 =
            [Event.CreateMutex title, Event.FindWindow title,
             Event.ShowWindow hWnd, Event.SetFocus hWnd,
             Event.SetForegroundWindow hWnd, Event.SetActiveWindow hWnd]) := by
  unfold IsOnlyInstance
  by_cases h : os.lastError title = ERROR_SUCCESS
  · simp [h]
  · cases hw : os.findWindow title <;> simp [h]

/-- C7 (as stated, refuted): on a full disk (0 available clusters of 8 sectors
of 512 bytes) `CheckStorage(4095)` returns `true` although the free space,
0 bytes, is less than the 4095 bytes required: "false exactly when the free
bytes are fewer than required" fails there. -/
theorem CheckStorage_true_though_bytes_short :
    clusterBytes ⟨100, 0, 8, 512⟩ ≠ 0 ∧
    CheckStorage ⟨100, 0, 8, 512⟩ 4095 = some (true, [Event.getdiskfree]) ∧
    ¬ ((CheckStorage ⟨100, 0, 8, 512⟩ 4095).map Prod.fst = some false ↔
        0 * 8 * 512 < 4095) := by
  refine ⟨by decide, by decide, by decide⟩

/-- C7 (amended): for every disk geometry whose cluster size (the 32-bit product
`sectors_per_cluster * bytes_per_sector`) is non-zero and every `requiredBytes`,
`CheckStorage` returns, and it returns `false` exactly when `avail_clusters` is
less than `requiredBytes` divided, rounding down, by the cluster size, that is
exactly when `(avail_clusters + 1) * clusterSize ≤ requiredBytes`; it returns
`true` otherwise.  When the cluster size divides `requiredBytes` this is exactly
`avail_clusters * clusterSize < requiredBytes`. -/
theorem CheckStorage_false_iff (d : diskfree_t) (requiredBytes : Nat)
    (hc : clusterBytes d ≠ 0) :
    (∃ r, CheckStorage d requiredBytes = some r) ∧
    ((CheckStorage d requiredBytes).map Prod.fst = some false ↔
        (d.avail_clusters + 1) * clusterBytes d ≤ requiredBytes) ∧
    ((CheckStorage d requiredBytes).map Prod.fst = some true ↔
        requiredBytes < (d.avail_clusters + 1) * clusterBytes d) ∧
    (clusterBytes d ∣ requiredBytes →
        ((CheckStorage d requiredBytes).map Prod.fst = some false ↔
          d.avail_clusters * clusterBytes d < requiredBytes)) := by
  have hpos : 0 < clusterBytes d := Nat.pos_of_ne_zero hc
  have key : d.avail_clusters < requiredBytes / clusterBytes d ↔
      (d.avail_clusters + 1) * clusterBytes d ≤ requiredBytes := by
    rw [Nat.lt_iff_add_one_le, Nat.le_div_iff_mul_le hpos]
  unfold CheckStorage
  simp only [hc, if_false]
  by_cases hlt : d.avail_clusters < requiredBytes / clusterBytes d
  · have h2 := key.mp hlt
    refine ⟨by simp [hlt], by simp [hlt, h2], ?_, ?_⟩
    · simp [hlt]; omega
    · intro hdvd
      simp only [hlt, if_true, Option.map_some', true_iff]
      have : d.avail_clusters * clusterBytes d < (d.avail_clusters + 1) * clusterBytes d := by
        rw [Nat.add_mul]; omega
      omega
  · have h2 : requiredBytes < (d.avail_clusters + 1) * clusterBytes d := by
      by_contra hcon
      exact hlt (key.mpr (Nat.le_of_not_lt hcon))
    refine ⟨by simp [hlt], ?_, by simp [hlt, h2], ?_⟩
    · simp [hlt]; omega
    · rintro ⟨q, hq⟩
      have hfalse : ¬ d.avail_clusters * clusterBytes d < requiredBytes := by
        rw [hq, Nat.mul_comm (clusterBytes d) q] at h2 ⊢
        have hq1 : q < d.avail_clusters + 1 := Nat.lt_of_mul_lt_mul_right h2
        have hq2 : q ≤ d.avail_clusters := Nat.lt_succ_iff.mp hq1
        exact Nat.not_lt.mpr (Nat.mul_le_mul_right (clusterBytes d) hq2)
      simp [hlt, hfalse]

/-- Witness for `CheckStorage_false_iff`: 4096-byte clusters, 10 MB required. -/
theorem CheckStorage_false_iff_witness :
    clusterBytes ⟨100, 2559, 8, 512⟩ ≠ 0 ∧
    ((CheckStorage ⟨100, 2559, 8, 512⟩ 10485760).map Prod.fst = some false ↔
        (2559 + 1) * clusterBytes ⟨100, 2559, 8, 512⟩ ≤ 10485760) :=
  ⟨by decide, (CheckStorage_false_iff ⟨100, 2559, 8, 512⟩ 10485760 (by decide)).2.1⟩

/-! ## Theorems on InitInstance -/

/-- `CheckStorage` returns once the cluster size is non-zero. -/
theorem CheckStorage_isSome (d : diskfree_t) (n : Nat) (hc : clusterBytes d ≠ 0) :
    ∃ b t, CheckStorage d n = some (b, t) := by
  unfold CheckStorage
  simp only [hc, if_false]
  split
  · exact ⟨_, _, rfl⟩
  · exact ⟨_, _, rfl⟩

/-- The calls of `IsOnlyInstance`: one guard step, opened by `CreateMutex`, no teardown. -/
theorem IsOnlyInstance_steps (os : MutexEnv) (title : String) :
    stepsTaken (IsOnlyInstance os title).2 = [Step.instanceGuard] ∧
    (IsOnlyInstance os title).2.filter Event.isDestroy = [] ∧
    ((IsOnlyInstance os title).2.head? = some (Event.CreateMutex title)) := by
  unfold IsOnlyInstance stepsTaken
  split
  · split <;> simp [Event.step, Event.isDestroy]
  · simp [Event.step, Event.isDestroy]

/-- The calls of `CheckStorage`: one storage step, no teardown, one line printed on failure. -/
theorem CheckStorage_steps (d : diskfree_t) (n : Nat) (b : Bool) (t : List Event)
    (h : CheckStorage d n = some (b, t)) :
    stepsTaken t = [Step.storage] ∧ t.filter Event.isDestroy = [] ∧
    reported t = (if b then [] else [storageFailureLine]) := by
  unfold CheckStorage at h
  split at h
  · simp at h
  · simp only [] at h
    split at h <;>
    · simp only [Option.some.injEq, Prod.mk.injEq] at h
      obtain ⟨rfl, rfl⟩ := h
      simp [stepsTaken, Event.step, Event.isDestroy, reported]

/-- The calls of `ReadCPUSpeed`: one CPU step, no teardown, nothing printed. -/
theorem ReadCPUSpeed_steps (reg : RegistryEnv) :
    stepsTaken (ReadCPUSpeed reg).2 = [Step.cpuSpeed] ∧
    (ReadCPUSpeed reg).2.filter Event.isDestroy = [] ∧
    reported (ReadCPUSpeed reg).2 = [] := by
  unfold ReadCPUSpeed
  split <;> simp [stepsTaken, Event.step, Event.isDestroy, reported]

/-- `LoadStrings` succeeds exactly when the root element is loaded. -/
theorem LoadStrings_fst (xml : String → Option (List TiXmlElement)) (M : StringHelpers)
    (language : String) (a : GameCodeApp) :
    (LoadStrings xml M language a).1 = (xml ("Strings\\" ++ language ++ ".xml")).isSome := by
  unfold LoadStrings
  simp only []
  split <;> simp_all

/-- The one external call of `LoadStrings`. -/
theorem LoadStrings_events (xml : String → Option (List TiXmlElement)) (M : StringHelpers)
    (language : String) (a : GameCodeApp) :
    (LoadStrings xml M language a).2.2 =
      [Event.LoadAndReturnRootXmlElement ("Strings\\" ++ language ++ ".xml")] := by
  unfold LoadStrings
  simp only []
  split <;> rfl

/-- `LoadStrings` touches none of the subsystem pointers. -/
theorem LoadStrings_state (xml : String → Option (List TiXmlElement)) (M : StringHelpers)
    (language : String) (a : GameCodeApp) :
    (LoadStrings xml M language a).2.1.m_bIsRunning = a.m_bIsRunning ∧
    (LoadStrings xml M language a).2.1.m_pGame = a.m_pGame ∧
    (LoadStrings xml M language a).2.1.m_ResCache = a.m_ResCache ∧
    (LoadStrings xml M language a).2.1.m_pEventManager = a.m_pEventManager ∧
    (LoadStrings xml M language a).2.1.hwnd = a.hwnd := by
  have key : ∀ (l : List TiXmlElement) (b : GameCodeApp),
      (l.foldl (LoadStrings_elem M) b).m_bIsRunning = b.m_bIsRunning ∧
      (l.foldl (LoadStrings_elem M) b).m_pGame = b.m_pGame ∧
      (l.foldl (LoadStrings_elem M) b).m_ResCache = b.m_ResCache ∧
      (l.foldl (LoadStrings_elem M) b).m_pEventManager = b.m_pEventManager ∧
      (l.foldl (LoadStrings_elem M) b).hwnd = b.hwnd := by
    intro l
    induction l with
    | nil => intro b; simp
    | cons e l ih =>
      intro b
      simp only [List.foldl_cons]
      have h1 : (LoadStrings_elem M b e).m_bIsRunning = b.m_bIsRunning ∧
          (LoadStrings_elem M b e).m_pGame = b.m_pGame ∧
          (LoadStrings_elem M b e).m_ResCache = b.m_ResCache ∧
          (LoadStrings_elem M b e).m_pEventManager = b.m_pEventManager ∧
          (LoadStrings_elem M b e).hwnd = b.hwnd := by
        unfold LoadStrings_elem
        split
        · split <;> simp
        · simp
      obtain ⟨i1, i2, i3, i4, i5⟩ := ih (LoadStrings_elem M b e)
      obtain ⟨j1, j2, j3, j4, j5⟩ := h1
      exact ⟨i1.trans j1, i2.trans j2, i3.trans j3, i4.trans j4, i5.trans j5⟩
  unfold LoadStrings
  simp only []
  split
  · simp
  · exact key _ a

/-- Two states with the same members and window are the same state. -/
theorem appExt (x y : GameCodeApp)
    (h1 : x.m_hInstance = y.m_hInstance) (h2 : x.m_pGame = y.m_pGame)
    (h3 : x.m_screenSize = y.m_screenSize) (h4 : x.m_iColorDepth = y.m_iColorDepth)
    (h5 : x.m_bIsRunning = y.m_bIsRunning) (h6 : x.m_bIsEditorRunning = y.m_bIsEditorRunning)
    (h7 : x.m_pEventManager = y.m_pEventManager) (h8 : x.m_ResCache = y.m_ResCache)
    (h9 : x.m_pNetworkEventForwarder = y.m_pNetworkEventForwarder)
    (h10 : x.m_pBaseSocketManager = y.m_pBaseSocketManager)
    (h11 : x.m_bQuitRequested = y.m_bQuitRequested) (h12 : x.m_bQuitting = y.m_bQuitting)
    (h13 : x.m_HasModalDialog = y.m_HasModalDialog) (h14 : x.m_Renderer = y.m_Renderer)
    (h15 : x.m_textResource = y.m_textResource) (h16 : x.m_hotkeys = y.m_hotkeys)
    (h17 : x.hwnd = y.hwnd) : x = y := by
  cases x
  cases y
  simp_all

/-- A `LoadStrings` that finds no root leaves the state as it was. -/
theorem LoadStrings_fail (xml : String → Option (List TiXmlElement)) (M : StringHelpers)
    (language : String) (a : GameCodeApp)
    (h : (xml ("Strings\\" ++ language ++ ".xml")).isSome = false) :
    (LoadStrings xml M language a).2.1 = a := by
  have h2 : xml ("Strings\\" ++ language ++ ".xml") = none := by simpa using h
  simp [LoadStrings, h2]

set_option maxHeartbeats 4000000 in
/-- A run of `InitInstance` from a fresh `GameCodeApp`, path by path: where it
stops, what it has called and what it leaves behind. -/
theorem InitInstance_run (debug : Bool) (env : Env) (hInstance : Nat)
    (hWnd : Option HWND) (screenWidth screenHeight : Nat)
    (hc : clusterBytes env.disk ≠ 0) :
    ∃ r a t,
      InitInstance debug env hInstance hWnd screenWidth screenHeight
        GameCodeApp.GameCodeApp = some (r, a, t) ∧
      (firstFailure debug env = none → r = true ∧ a.m_bIsRunning = true ∧
        stepsTaken t = stepsThrough debug Step.gameCreation) ∧
      (∀ s, firstFailure debug env = some s →
        a = stateAtFailure env hInstance screenWidth screenHeight s ∧
        t = callsThrough debug env hWnd s ∧
        r = false ∧ a.m_bIsRunning = false ∧ stepsTaken t = stepsThrough debug s ∧
        t.filter Event.isDestroy = [] ∧ a.m_pGame = false ∧
        a.m_ResCache = decide (s ∈ [Step.cacheInit, Step.loadStrings, Step.luaCreate,
          Step.eventManager, Step.windowHandle, Step.gameCreation]) ∧
        a.m_pEventManager = decide (s ∈ [Step.windowHandle, Step.gameCreation]) ∧
        a.hwnd = (if s = Step.gameCreation then env.hwnd else none)) ∧
      (debug = false → t.head? = some (Event.CreateMutex env.title)) ∧
      (stepOk debug env Step.instanceGuard = true → stepOk debug env Step.storage = true →
        stepOk debug env Step.cpuSpeed = true →
        ∀ st, CheckStorage env.disk (10 * MEGABYTE) = some (true, st) →
          (guardEvents debug env ++
            [Event.SetCursor] ++ st ++ (ReadCPUSpeed env.registry).2 ++
            [Event.RegisterEngineEvents]) <+: t) := by
  obtain ⟨sb, st, hs⟩ := CheckStorage_isSome env.disk (10 * MEGABYTE) hc
  obtain ⟨hs1, hs2, -⟩ := CheckStorage_steps _ _ _ _ hs
  obtain ⟨hg1, hg2, hg3⟩ := IsOnlyInstance_steps env.os env.title
  obtain ⟨hc1, hc2, -⟩ := ReadCPUSpeed_steps env.registry
  have hl := fun a => LoadStrings_fst env.xml env.ext "English" a
  -- the instance check, compiled in or not
  obtain ⟨g, gt, hgp, hgt1, hgt2, hgok, hgt3, hgt4⟩ : ∃ g gt,
      (if debug = true then (true, []) else IsOnlyInstance env.os env.title) = (g, gt) ∧
      stepsTaken gt = (if debug = true then [] else [Step.instanceGuard]) ∧
      gt.filter Event.isDestroy = [] ∧ stepOk debug env Step.instanceGuard = g ∧
      (debug = false → gt.head? = some (Event.CreateMutex env.title)) ∧
      guardEvents debug env = gt := by
    cases debug
    · exact ⟨(IsOnlyInstance env.os env.title).1, (IsOnlyInstance env.os env.title).2,
        by simp, by simpa using hg1, by simpa using hg2, by simp [stepOk], fun _ => hg3,
        by simp [guardEvents]⟩
    · exact ⟨true, [], by simp, by simp [stepsTaken], by simp, by simp [stepOk], by simp,
        by simp [guardEvents]⟩
  rw [hgt4]
  clear hg1 hg2 hg3
  simp only [InitInstance, hgp, hs]
  cases g
  · simp only [↓reduceIte]
    refine ⟨_, _, _, rfl, ?_, ?_, ?_, ?_⟩
    · simp [firstFailure, stepOrder, hgok]
    · intro s hf
      simp [firstFailure, stepOrder, hgok] at hf
      subst hf
      refine ⟨?_, ?_, ?_⟩
      · apply appExt <;>
          simp [stateAtFailure, eventManagerBuilt, stringsLoaded, cacheBuilt,
            GameCodeApp.GameCodeApp, LoadStrings_state, LoadStrings_fail,
            hgok]
      · simp [callsThrough, stepOrder, stepCalls, hs, hgt4, LoadStrings_events,
          GameCodeApp.GameCodeApp,
          hgok]
      · cases debug <;> cases hWnd <;>
          simp_all [stepsThrough, stepOrder, GameCodeApp.GameCodeApp, stepsTaken, Event.step,
            Event.isDestroy, LoadStrings_events, LoadStrings_state, LoadStrings_fst]
    · intro hd
      subst hd
      simp_all [List.head?_append]
    · intro _ _ _ st2 hst2
      simp_all [List.append_assoc]
  have hk2 : stepOk debug env Step.storage = sb := by simp [stepOk, hs]
  cases sb
  · simp only [Bool.true_eq_false, ↓reduceIte]
    refine ⟨_, _, _, rfl, ?_, ?_, ?_, ?_⟩
    · simp [firstFailure, stepOrder, hgok, hk2]
    · intro s hf
      simp [firstFailure, stepOrder, hgok, hk2] at hf
      subst hf
      refine ⟨?_, ?_, ?_⟩
      · apply appExt <;>
          simp [stateAtFailure, eventManagerBuilt, stringsLoaded, cacheBuilt,
            GameCodeApp.GameCodeApp, LoadStrings_state, LoadStrings_fail,
            hgok, hk2]
      · simp [callsThrough, stepOrder, stepCalls, hs, hgt4, LoadStrings_events,
          GameCodeApp.GameCodeApp,
          hgok, hk2]
      · cases debug <;> cases hWnd <;>
          simp_all [stepsThrough, stepOrder, GameCodeApp.GameCodeApp, stepsTaken, Event.step,
            Event.isDestroy, LoadStrings_events, LoadStrings_state, LoadStrings_fst]
    · intro hd
      subst hd
      simp_all [List.head?_append]
    · intro _ _ _ st2 hst2
      simp_all [List.append_assoc]
  have hk3 : stepOk debug env Step.cpuSpeed = decide (¬ (ReadCPUSpeed env.registry).1 < 1300) := by
    simp [stepOk]
  by_cases hcpu : (ReadCPUSpeed env.registry).1 < 1300
  · simp only [Bool.true_eq_false, hcpu, ↓reduceIte]
    refine ⟨_, _, _, rfl, ?_, ?_, ?_, ?_⟩
    · simp [firstFailure, stepOrder, hgok, hk2, hk3, hcpu]
    · intro s hf
      simp [firstFailure, stepOrder, hgok, hk2, hk3, hcpu] at hf
      subst hf
      refine ⟨?_, ?_, ?_⟩
      · apply appExt <;>
          simp [stateAtFailure, eventManagerBuilt, stringsLoaded, cacheBuilt,
            GameCodeApp.GameCodeApp, LoadStrings_state, LoadStrings_fail,
            hgok, hk2, hk3, hcpu]
      · simp [callsThrough, stepOrder, stepCalls, hs, hgt4, LoadStrings_events,
          GameCodeApp.GameCodeApp,
          hgok, hk2, hk3, hcpu]
      · cases debug <;> cases hWnd <;>
          simp_all [stepsThrough, stepOrder, GameCodeApp.GameCodeApp, stepsTaken, Event.step,
            Event.isDestroy, LoadStrings_events, LoadStrings_state, LoadStrings_fst]
    · intro hd
      subst hd
      simp_all [List.head?_append]
    · intro _ _ _ st2 hst2
      simp_all [List.append_assoc]
  simp only [Bool.true_eq_false, hcpu, ↓reduceIte]
  have hk4 : stepOk debug env Step.cacheInit = env.cacheInit := rfl
  cases hci : env.cacheInit
  · simp only [↓reduceIte]
    refine ⟨_, _, _, rfl, ?_, ?_, ?_, ?_⟩
    · simp [firstFailure, stepOrder, hgok, hk2, hk3, hcpu, hk4, hci]
    · intro s hf
      simp [firstFailure, stepOrder, hgok, hk2, hk3, hcpu, hk4, hci] at hf
      subst hf
      refine ⟨?_, ?_, ?_⟩
      · apply appExt <;>
          simp [stateAtFailure, eventManagerBuilt, stringsLoaded, cacheBuilt,
            GameCodeApp.GameCodeApp, LoadStrings_state, LoadStrings_fail,
            hgok, hk2, hk3, hcpu, hk4, hci]
      · simp [callsThrough, stepOrder, stepCalls, hs, hgt4, LoadStrings_events,
          GameCodeApp.GameCodeApp,
          hgok, hk2, hk3, hcpu, hk4, hci]
      · cases debug <;> cases hWnd <;>
          simp_all [stepsThrough, stepOrder, GameCodeApp.GameCodeApp, stepsTaken, Event.step,
            Event.isDestroy, LoadStrings_events, LoadStrings_state, LoadStrings_fst]
    · intro hd
      subst hd
      simp_all [List.head?_append]
    · intro _ _ _ st2 hst2
      simp_all [List.append_assoc]
  have hfile : ("Strings\\" ++ "English" ++ ".xml" : String) = "Strings\\English.xml" := by
    decide
  simp only [Bool.true_eq_false, ↓reduceIte, LoadStrings_fst, LoadStrings_events, hfile]
  have hk5 : stepOk debug env Step.loadStrings = (env.xml "Strings\\English.xml").isSome := by
    simp [stepOk, LoadStrings_fst]
  cases hx : (env.xml "Strings\\English.xml").isSome
  · simp only [↓reduceIte]
    refine ⟨_, _, _, rfl, ?_, ?_, ?_, ?_⟩
    · simp [firstFailure, stepOrder, hgok, hk2, hk3, hcpu, hk4, hci, hk5, hx]
    · intro s hf
      simp [firstFailure, stepOrder, hgok, hk2, hk3, hcpu, hk4, hci, hk5, hx] at hf
      subst hf
      refine ⟨?_, ?_, ?_⟩
      · apply appExt <;>
          simp [stateAtFailure, eventManagerBuilt, stringsLoaded, cacheBuilt,
            GameCodeApp.GameCodeApp, LoadStrings_state, LoadStrings_fail,
            hgok, hk2, hk3, hcpu, hk4, hci, hk5, hx]
      · simp [callsThrough, stepOrder, stepCalls, hs, hgt4, LoadStrings_events,
          GameCodeApp.GameCodeApp,
          hgok, hk2, hk3, hcpu, hk4, hci, hk5, hx]
      · cases debug <;> cases hWnd <;>
          simp_all [stepsThrough, stepOrder, GameCodeApp.GameCodeApp, stepsTaken, Event.step,
            Event.isDestroy, LoadStrings_events, LoadStrings_state, LoadStrings_fst]
    · intro hd
      subst hd
      simp_all [List.head?_append]
    · intro _ _ _ st2 hst2
      simp_all [List.append_assoc]
  simp only [Bool.true_eq_false, ↓reduceIte]
  have hk6 : stepOk debug env Step.luaCreate = env.luaCreate := rfl
  cases hlua : env.luaCreate
  · simp only [↓reduceIte]
    refine ⟨_, _, _, rfl, ?_, ?_, ?_, ?_⟩
    · simp [firstFailure, stepOrder, hgok, hk2, hk3, hcpu, hk4, hci, hk5, hx, hk6, hlua]
    · intro s hf
      simp [firstFailure, stepOrder, hgok, hk2, hk3, hcpu, hk4, hci, hk5, hx, hk6, hlua] at hf
      subst hf
      refine ⟨?_, ?_, ?_⟩
      · apply appExt <;>
          simp [stateAtFailure, eventManagerBuilt, stringsLoaded, cacheBuilt,
            GameCodeApp.GameCodeApp, LoadStrings_state, LoadStrings_fail,
            hgok, hk2, hk3, hcpu, hk4, hci, hk5, hx, hk6, hlua]
      · simp [callsThrough, stepOrder, stepCalls, hs, hgt4, LoadStrings_events,
          GameCodeApp.GameCodeApp,
          hgok, hk2, hk3, hcpu, hk4, hci, hk5, hx, hk6, hlua]
      · cases debug <;> cases hWnd <;>
          simp_all [stepsThrough, stepOrder, GameCodeApp.GameCodeApp, stepsTaken, Event.step,
            Event.isDestroy, LoadStrings_events, LoadStrings_state, LoadStrings_fst]
    · intro hd
      subst hd
      simp_all [List.head?_append]
    · intro _ _ _ st2 hst2
      simp_all [List.append_assoc]
  simp only [Bool.true_eq_false, ↓reduceIte]
  have hk7 : stepOk debug env Step.eventManager = env.eventManager := rfl
  cases hem : env.eventManager
  · simp only [↓reduceIte]
    refine ⟨_, _, _, rfl, ?_, ?_, ?_, ?_⟩
    · simp [firstFailure, stepOrder, hgok, hk2, hk3, hcpu, hk4, hci, hk5, hx, hk6, hlua, hk7, hem]
    · intro s hf
      simp [firstFailure, stepOrder, hgok, hk2, hk3, hcpu, hk4, hci, hk5, hx, hk6, hlua, hk7, hem] at hf
      subst hf
      refine ⟨?_, ?_, ?_⟩
      · apply appExt <;>
          simp [stateAtFailure, eventManagerBuilt, stringsLoaded, cacheBuilt,
            GameCodeApp.GameCodeApp, LoadStrings_state, LoadStrings_fail,
            hgok, hk2, hk3, hcpu, hk4, hci, hk5, hx, hk6, hlua, hk7, hem]
      · simp [callsThrough, stepOrder, stepCalls, hs, hgt4, LoadStrings_events,
          GameCodeApp.GameCodeApp,
          hgok, hk2, hk3, hcpu, hk4, hci, hk5, hx, hk6, hlua, hk7, hem]
      · cases debug <;> cases hWnd <;>
          simp_all [stepsThrough, stepOrder, GameCodeApp.GameCodeApp, stepsTaken, Event.step,
            Event.isDestroy, LoadStrings_events, LoadStrings_state, LoadStrings_fst]
    · intro hd
      subst hd
      simp_all [List.head?_append]
    · intro _ _ _ st2 hst2
      simp_all [List.append_assoc]
  simp only [Bool.true_eq_false, ↓reduceIte]
  have hk8 : stepOk debug env Step.windowHandle = env.hwnd.isSome := rfl
  cases hw : env.hwnd with
  | none =>
    simp only []
    refine ⟨_, _, _, rfl, ?_, ?_, ?_, ?_⟩
    · simp [firstFailure, stepOrder, hgok, hk2, hk3, hcpu, hk4, hci, hk5, hx, hk6, hlua, hk7, hem, hk8, hw]
    · intro s hf
      simp [firstFailure, stepOrder, hgok, hk2, hk3, hcpu, hk4, hci, hk5, hx, hk6, hlua, hk7, hem, hk8, hw] at hf
      subst hf
      refine ⟨?_, ?_, ?_⟩
      · apply appExt <;>
          simp [stateAtFailure, eventManagerBuilt, stringsLoaded, cacheBuilt,
            GameCodeApp.GameCodeApp, LoadStrings_state, LoadStrings_fail,
            hgok, hk2, hk3, hcpu, hk4, hci, hk5, hx, hk6, hlua, hk7, hem, hk8, hw]
      · simp [callsThrough, stepOrder, stepCalls, hs, hgt4, LoadStrings_events,
          GameCodeApp.GameCodeApp,
          hgok, hk2, hk3, hcpu, hk4, hci, hk5, hx, hk6, hlua, hk7, hem, hk8, hw]
      · cases debug <;> cases hWnd <;>
          simp_all [stepsThrough, stepOrder, GameCodeApp.GameCodeApp, stepsTaken, Event.step,
            Event.isDestroy, LoadStrings_events, LoadStrings_state, LoadStrings_fst]
    · intro hd
      subst hd
      simp_all [List.head?_append]
    · intro _ _ _ st2 hst2
      simp_all [List.append_assoc]
  | some h =>
  simp only []
  have hk9 : stepOk debug env Step.gameCreation = env.game := rfl
  cases hgame : env.game
  · simp only [↓reduceIte]
    refine ⟨_, _, _, rfl, ?_, ?_, ?_, ?_⟩
    · simp [firstFailure, stepOrder, hgok, hk2, hk3, hcpu, hk4, hci, hk5, hx, hk6, hlua, hk7, hem, hk8, hw, hk9, hgame]
    · intro s hf
      simp [firstFailure, stepOrder, hgok, hk2, hk3, hcpu, hk4, hci, hk5, hx, hk6, hlua, hk7, hem, hk8, hw, hk9, hgame] at hf
      subst hf
      refine ⟨?_, ?_, ?_⟩
      · apply appExt <;>
          simp [stateAtFailure, eventManagerBuilt, stringsLoaded, cacheBuilt,
            GameCodeApp.GameCodeApp, LoadStrings_state, LoadStrings_fail,
            hgok, hk2, hk3, hcpu, hk4, hci, hk5, hx, hk6, hlua, hk7, hem, hk8, hw, hk9, hgame]
      · simp [callsThrough, stepOrder, stepCalls, hs, hgt4, LoadStrings_events,
          GameCodeApp.GameCodeApp,
          hgok, hk2, hk3, hcpu, hk4, hci, hk5, hx, hk6, hlua, hk7, hem, hk8, hw, hk9, hgame]
      · cases debug <;> cases hWnd <;>
          simp_all [stepsThrough, stepOrder, GameCodeApp.GameCodeApp, stepsTaken, Event.step,
            Event.isDestroy, LoadStrings_events, LoadStrings_state, LoadStrings_fst]
    · intro hd
      subst hd
      simp_all [List.head?_append]
    · intro _ _ _ st2 hst2
      simp_all [List.append_assoc]
  simp only [Bool.true_eq_false, ↓reduceIte]
  refine ⟨_, _, _, rfl, ?_, ?_, ?_, ?_⟩
  · intro _
    cases debug <;> cases hWnd <;> cases env.rendererImpl <;>
      simp_all [stepsThrough, stepOrder, GameCodeApp.GameCodeApp, stepsTaken, Event.step,
        Event.isDestroy, LoadStrings_events, LoadStrings_state, LoadStrings_fst]
  · intro s hf
    simp [firstFailure, stepOrder, hgok, hk2, hk3, hcpu, hk4, hci, hk5, hx, hk6, hlua, hk7, hem, hk8, hw, hk9, hgame] at hf
  · intro hd
    subst hd
    simp_all [List.head?_append]
  · intro _ _ _ st2 hst2
    simp_all [List.append_assoc]

/-- Every step is listed in `stepOrder`, so no failure means all steps succeed. -/
theorem firstFailure_none_iff (debug : Bool) (env : Env) :
    firstFailure debug env = none ↔ ∀ s, stepOk debug env s = true := by
  unfold firstFailure
  rw [List.find?_eq_none]
  constructor
  · intro h s
    have hs : s ∈ stepOrder := by cases s <;> simp [stepOrder]
    simpa using h s hs
  · intro h s _
    simp [h s]

/-- The first failure is a step that fails. -/
theorem firstFailure_some (debug : Bool) (env : Env) (s : Step)
    (h : firstFailure debug env = some s) : stepOk debug env s = false := by
  unfold firstFailure at h
  simpa using List.find?_some h

/-- C1: from a freshly constructed `GameCodeApp`, whatever the external steps
answer (the instance guard counting only where it is compiled in, and the disk
geometry having a non-zero cluster size so that the storage check answers),
`InitInstance` returns; `m_bIsRunning` is true afterwards if and only if every
failable step succeeded; in that case the result is true; and if some step
fails the result is false and `m_bIsRunning` is still false. -/
theorem InitInstance_running_iff (debug : Bool) (env : Env) (hInstance : Nat)
    (hWnd : Option HWND) (screenWidth screenHeight : Nat)
    (hc : clusterBytes env.disk ≠ 0) :
    GameCodeApp.GameCodeApp.m_bIsRunning = false ∧
    ∃ r a t,
      InitInstance debug env hInstance hWnd screenWidth screenHeight
        GameCodeApp.GameCodeApp = some (r, a, t) ∧
      (a.m_bIsRunning = true ↔ ∀ s, stepOk debug env s = true) ∧
      ((∀ s, stepOk debug env s = true) → r = true) ∧
      ((∃ s, stepOk debug env s = false) → r = false ∧ a.m_bIsRunning = false) := by
  refine ⟨rfl, ?_⟩
  obtain ⟨r, a, t, hrun, hok, hfail, -, -⟩ :=
    InitInstance_run debug env hInstance hWnd screenWidth screenHeight hc
  refine ⟨r, a, t, hrun, ?_, ?_, ?_⟩
  · cases hf : firstFailure debug env with
    | none =>
      have hall := (firstFailure_none_iff debug env).mp hf
      simp [hall, (hok hf).2.1]
    | some s =>
      have hs := firstFailure_some debug env s hf
      have hr := (hfail s hf).2.2.2.1
      constructor
      · intro h
        rw [hr] at h
        exact absurd h (by simp)
      · intro h
        rw [h s] at hs
        exact absurd hs (by simp)
  · intro hall
    exact (hok ((firstFailure_none_iff debug env).mpr hall)).1
  · rintro ⟨s, hs⟩
    cases hf : firstFailure debug env with
    | none =>
      have hall := (firstFailure_none_iff debug env).mp hf
      rw [hall s] at hs
      exact absurd hs (by simp)
    | some s2 => exact ⟨(hfail s2 hf).2.2.1, (hfail s2 hf).2.2.2.1⟩

/-- The two ways the pre-flight checks stop `InitInstance`, with what has been
called by then. -/
theorem InitInstance_preflight_fail (debug : Bool) (env : Env) (hInstance : Nat)
    (hWnd : Option HWND) (screenWidth screenHeight : Nat) (sb : Bool) (st : List Event)
    (hg : stepOk debug env Step.instanceGuard = true)
    (hs : CheckStorage env.disk (10 * MEGABYTE) = some (sb, st)) :
    (sb = false →
      InitInstance debug env hInstance hWnd screenWidth screenHeight GameCodeApp.GameCodeApp =
        some (false, GameCodeApp.GameCodeApp, guardEvents debug env ++ [Event.SetCursor] ++ st)) ∧
    (sb = true → (ReadCPUSpeed env.registry).1 < 1300 →
      InitInstance debug env hInstance hWnd screenWidth screenHeight GameCodeApp.GameCodeApp =
        some (false, GameCodeApp.GameCodeApp,
          guardEvents debug env ++ [Event.SetCursor] ++ st ++ (ReadCPUSpeed env.registry).2)) := by
  have hgp : (if debug = true then (true, []) else IsOnlyInstance env.os env.title) =
      (true, guardEvents debug env) := by
    cases debug
    · simp [stepOk] at hg
      simp [guardEvents, Prod.ext_iff, hg]
    · simp [guardEvents]
  constructor
  · intro hsb
    subst hsb
    simp only [InitInstance, hgp, hs]
    simp
  · intro hsb hcpu
    subst hsb
    simp only [InitInstance, hgp, hs]
    simp [hcpu]

/-- The steps through `s` are those listed no later than `s`. -/
theorem stepsThrough_le (debug : Bool) (s s2 : Step) (h : s2 ∈ stepsThrough debug s) :
    stepOrder.indexOf s2 ≤ stepOrder.indexOf s := by
  revert h
  cases debug <;> cases s <;> cases s2 <;> decide

/-- Witness for `InitInstance_running_iff`: the sample environment, release build. -/
theorem InitInstance_running_iff_witness :
    clusterBytes sampleEnv.disk ≠ 0 ∧
    (GameCodeApp.GameCodeApp.m_bIsRunning = false ∧
    ∃ r a t,
      InitInstance false sampleEnv 1 none 800 600 GameCodeApp.GameCodeApp = some (r, a, t) ∧
      (a.m_bIsRunning = true ↔ ∀ s, stepOk false sampleEnv s = true) ∧
      ((∀ s, stepOk false sampleEnv s = true) → r = true) ∧
      ((∃ s, stepOk false sampleEnv s = false) → r = false ∧ a.m_bIsRunning = false)) :=
  ⟨by decide, InitInstance_running_iff false sampleEnv 1 none 800 600 (by decide)⟩

/-- C10: `InitInstance` is fail-fast without rollback.  Whichever failable step
is the first to fail, `InitInstance` returns false at once: the calls made are
exactly the calls of the steps up to and including the failing one, in the fixed
order, and nothing after them, so none of the later steps is executed and no
teardown operation is executed; and the state is exactly what the completed
steps constructed, left as it was: `m_ResCache` is non-null from the cache step
on (for instance when `LoadStrings` fails), the two maps hold what
`LoadStrings` loaded, `m_pEventManager` is non-null once its creation
succeeded, the window handle, screen size and renderer stand when only the game
creation failed, and `m_bIsRunning` stays false. -/
theorem InitInstance_fail_fast (debug : Bool) (env : Env) (hInstance : Nat)
    (hWnd : Option HWND) (screenWidth screenHeight : Nat) (s : Step)
    (hc : clusterBytes env.disk ≠ 0) (hf : firstFailure debug env = some s) :
    ∃ a t,
      InitInstance debug env hInstance hWnd screenWidth screenHeight
        GameCodeApp.GameCodeApp = some (false, a, t) ∧
      a = stateAtFailure env hInstance screenWidth screenHeight s ∧
      t = callsThrough debug env hWnd s ∧
      stepsTaken t = stepsThrough debug s ∧
      (∀ s2, s2 ∈ stepsTaken t → stepOrder.indexOf s2 ≤ stepOrder.indexOf s) ∧
      t.filter Event.isDestroy = [] ∧
      a.m_bIsRunning = false ∧ a.m_pGame = false ∧
      a.m_ResCache = decide (s ∈ [Step.cacheInit, Step.loadStrings, Step.luaCreate,
        Step.eventManager, Step.windowHandle, Step.gameCreation]) ∧
      a.m_pEventManager = decide (s ∈ [Step.windowHandle, Step.gameCreation]) ∧
      a.hwnd = (if s = Step.gameCreation then env.hwnd else none) := by
  obtain ⟨r, a, t, hrun, -, hfail, -, -⟩ :=
    InitInstance_run debug env hInstance hWnd screenWidth screenHeight hc
  obtain ⟨hst, htr, h1, h2, h3, h4, h5, h6, h7, h8⟩ := hfail s hf
  subst h1
  refine ⟨a, t, hrun, hst, htr, h3, ?_, h4, h2, h5, h6, h7, h8⟩
  intro s2 hs2
  rw [h3] at hs2
  exact stepsThrough_le debug s s2 hs2

/-- Witness for `InitInstance_fail_fast`: the strings file is missing, so
`LoadStrings` is the first step to fail; the cache built before it stays. -/
theorem InitInstance_fail_fast_witness :
    clusterBytes noStringsEnv.disk ≠ 0 ∧
    firstFailure false noStringsEnv = some Step.loadStrings ∧
    ∃ a t,
      InitInstance false noStringsEnv 1 none 800 600
        GameCodeApp.GameCodeApp = some (false, a, t) ∧
      a = stateAtFailure noStringsEnv 1 800 600 Step.loadStrings ∧
      t = callsThrough false noStringsEnv none Step.loadStrings ∧
      stepsTaken t = stepsThrough false Step.loadStrings ∧
      (∀ s2, s2 ∈ stepsTaken t →
        stepOrder.indexOf s2 ≤ stepOrder.indexOf Step.loadStrings) ∧
      t.filter Event.isDestroy = [] ∧
      a.m_bIsRunning = false ∧ a.m_pGame = false ∧
      a.m_ResCache = decide (Step.loadStrings ∈ [Step.cacheInit, Step.loadStrings,
        Step.luaCreate, Step.eventManager, Step.windowHandle, Step.gameCreation]) ∧
      a.m_pEventManager = decide (Step.loadStrings ∈ [Step.windowHandle, Step.gameCreation]) ∧
      a.hwnd = (if Step.loadStrings = Step.gameCreation then noStringsEnv.hwnd else none) :=
  ⟨by decide, by decide,
    InitInstance_fail_fast false noStringsEnv 1 none 800 600
      Step.loadStrings (by decide) (by decide)⟩

/-- C2 (as stated, refuted): with enough disk space and a 1000 MHz CPU,
`InitInstance` returns the bare `false` after reading the CPU speed and nothing
is reported (`GCC_ERROR` expands to a statement without effect): the result does
not identify the CPU.  Its return value and its report are those of a run that
fails elsewhere, at the opening of the resource cache. -/
theorem InitInstance_cpu_failure_is_silent :
    InitInstance false slowCpuEnv 1 none 800 600 GameCodeApp.GameCodeApp =
      some (false, GameCodeApp.GameCodeApp,
        [Event.CreateMutex "Raingame", Event.SetCursor, Event.getdiskfree,
         Event.RegOpenKeyEx, Event.RegQueryValueEx]) ∧
    (InitInstance false slowCpuEnv 1 none 800 600 GameCodeApp.GameCodeApp).map
        (fun x => (x.1, reported x.2.2)) = some (false, []) ∧
    (InitInstance false noCacheEnv 1 none 800 600 GameCodeApp.GameCodeApp).map
        (fun x => (x.1, reported x.2.2)) = some (false, []) ∧
    firstFailure false slowCpuEnv = some Step.cpuSpeed ∧
    firstFailure false noCacheEnv = some Step.cacheInit := by
  refine ⟨by decide, by decide, by decide, by decide, by decide⟩

/-- C2 (amended): once the instance check has passed, the pre-flight validation
of `InitInstance` (10 MB of disk, 1300 MHz) takes storage first.  If
`CheckStorage` fails, `InitInstance` returns false with the state untouched,
the one line reported is the storage failure line, and the CPU speed is not
read.  If `CheckStorage` passes and the speed read is below 1300,
`InitInstance` returns false with the state untouched right after reading the
speed, and nothing is reported.  If `CheckStorage` passes and the speed is at
least 1300, the run goes on: event registration follows directly and the
resource cache step is taken. -/
theorem InitInstance_preflight (debug : Bool) (env : Env) (hInstance : Nat)
    (hWnd : Option HWND) (screenWidth screenHeight : Nat)
    (hc : clusterBytes env.disk ≠ 0)
    (hg : stepOk debug env Step.instanceGuard = true) :
    ∃ sb st r a t,
      CheckStorage env.disk (10 * MEGABYTE) = some (sb, st) ∧
      InitInstance debug env hInstance hWnd screenWidth screenHeight
        GameCodeApp.GameCodeApp = some (r, a, t) ∧
      (sb = false →
        r = false ∧ a = GameCodeApp.GameCodeApp ∧
        t = guardEvents debug env ++ [Event.SetCursor] ++ st ∧
        reported t = [storageFailureLine] ∧
        Event.RegOpenKeyEx ∉ t ∧ Event.RegQueryValueEx ∉ t) ∧
      (sb = true → (ReadCPUSpeed env.registry).1 < 1300 →
        r = false ∧ a = GameCodeApp.GameCodeApp ∧
        t = guardEvents debug env ++ [Event.SetCursor] ++ st ++ (ReadCPUSpeed env.registry).2 ∧
        reported t = []) ∧
      (sb = true → 1300 ≤ (ReadCPUSpeed env.registry).1 →
        (guardEvents debug env ++ [Event.SetCursor] ++ st ++ (ReadCPUSpeed env.registry).2 ++
          [Event.RegisterEngineEvents]) <+: t ∧
        Step.cacheInit ∈ stepsTaken t) := by
  obtain ⟨sb, st, hs⟩ := CheckStorage_isSome env.disk (10 * MEGABYTE) hc
  obtain ⟨r, a, t, hrun, hok, hfail, -, hpre⟩ :=
    InitInstance_run debug env hInstance hWnd screenWidth screenHeight hc
  obtain ⟨hf1, hf2⟩ :=
    InitInstance_preflight_fail debug env hInstance hWnd screenWidth screenHeight sb st hg hs
  have hgrep : reported (guardEvents debug env) = [] := by
    unfold guardEvents IsOnlyInstance
    cases debug
    · simp only [Bool.false_eq_true, if_false]
      split
      · split <;> simp [reported]
      · simp [reported]
    · simp [reported]
  have hgno : Event.RegOpenKeyEx ∉ guardEvents debug env ∧
      Event.RegQueryValueEx ∉ guardEvents debug env := by
    unfold guardEvents IsOnlyInstance
    cases debug
    · simp only [Bool.false_eq_true, if_false]
      split
      · split <;> simp
      · simp
    · simp
  obtain ⟨-, -, hsrep⟩ := CheckStorage_steps _ _ _ _ hs
  obtain ⟨-, -, hcrep⟩ := ReadCPUSpeed_steps env.registry
  refine ⟨sb, st, r, a, t, hs, hrun, ?_, ?_, ?_⟩
  · intro hsb
    have h := hf1 hsb
    rw [hrun] at h
    simp only [Option.some.injEq, Prod.mk.injEq] at h
    obtain ⟨h1, h2, h3⟩ := h
    subst hsb
    refine ⟨h1, h2, h3, ?_, ?_, ?_⟩
    · subst h3
      simp only [reported] at hgrep hsrep ⊢
      simp [List.filterMap_append, hgrep, hsrep]
    · subst h3
      unfold CheckStorage at hs
      simp only [hc, if_false] at hs
      split at hs
      · simp only [Option.some.injEq, Prod.mk.injEq] at hs
        simp [hgno.1, ← hs.2]
      · simp at hs
    · subst h3
      unfold CheckStorage at hs
      simp only [hc, if_false] at hs
      split at hs
      · simp only [Option.some.injEq, Prod.mk.injEq] at hs
        simp [hgno.2, ← hs.2]
      · simp at hs
  · intro hsb hcpu
    have h := hf2 hsb hcpu
    rw [hrun] at h
    simp only [Option.some.injEq, Prod.mk.injEq] at h
    obtain ⟨h1, h2, h3⟩ := h
    subst hsb
    refine ⟨h1, h2, h3, ?_⟩
    subst h3
    simp only [reported] at hgrep hsrep hcrep ⊢
    simp [List.filterMap_append, hgrep, hsrep, hcrep]
  · intro hsb hcpu
    subst hsb
    have hk2 : stepOk debug env Step.storage = true := by simp [stepOk, hs]
    have hk3 : stepOk debug env Step.cpuSpeed = true := by
      simp only [stepOk, decide_eq_true_eq]
      omega
    refine ⟨hpre hg hk2 hk3 st hs, ?_⟩
    cases hf : firstFailure debug env with
    | none =>
      rw [(hok hf).2.2]
      cases debug <;> decide
    | some s =>
      rw [(hfail s hf).2.2.2.2.1]
      have hs' := firstFailure_some debug env s hf
      cases s <;> first
        | (rw [hg] at hs'; exact absurd hs' (by simp))
        | (rw [hk2] at hs'; exact absurd hs' (by simp))
        | (rw [hk3] at hs'; exact absurd hs' (by simp))
        | (cases debug <;> decide)

/-- Witness for `InitInstance_preflight`: the slow CPU environment, release build. -/
theorem InitInstance_preflight_witness :
    clusterBytes slowCpuEnv.disk ≠ 0 ∧
    stepOk false slowCpuEnv Step.instanceGuard = true ∧
    ∃ sb st r a t,
      CheckStorage slowCpuEnv.disk (10 * MEGABYTE) = some (sb, st) ∧
      InitInstance false slowCpuEnv 1 none 800 600
        GameCodeApp.GameCodeApp = some (r, a, t) ∧
      (sb = false →
        r = false ∧ a = GameCodeApp.GameCodeApp ∧
        t = guardEvents false slowCpuEnv ++ [Event.SetCursor] ++ st ∧
        reported t = [storageFailureLine] ∧
        Event.RegOpenKeyEx ∉ t ∧ Event.RegQueryValueEx ∉ t) ∧
      (sb = true → (ReadCPUSpeed slowCpuEnv.registry).1 < 1300 →
        r = false ∧ a = GameCodeApp.GameCodeApp ∧
        t = guardEvents false slowCpuEnv ++ [Event.SetCursor] ++ st ++
          (ReadCPUSpeed slowCpuEnv.registry).2 ∧
        reported t = []) ∧
      (sb = true → 1300 ≤ (ReadCPUSpeed slowCpuEnv.registry).1 →
        (guardEvents false slowCpuEnv ++ [Event.SetCursor] ++ st ++
          (ReadCPUSpeed slowCpuEnv.registry).2 ++ [Event.RegisterEngineEvents]) <+: t ∧
        Step.cacheInit ∈ stepsTaken t) :=
  ⟨by decide, by decide,
    InitInstance_preflight false slowCpuEnv 1 none 800 600 (by decide) (by decide)⟩

/-- C9 (as stated, refuted): in a release build with too little disk space the
instance guard has been invoked (`CreateMutex` is the first call) although the
storage check is the step that fails: the pre-flight checks are not the first
steps. -/
theorem InitInstance_guard_runs_before_preflight :
    InitInstance false lowDiskEnv 1 none 800 600 GameCodeApp.GameCodeApp =
      some (false, GameCodeApp.GameCodeApp,
        [Event.CreateMutex "Raingame", Event.SetCursor, Event.getdiskfree,
         Event.cout storageFailureLine]) ∧
    firstFailure false lowDiskEnv = some Step.storage ∧
    Step.instanceGuard ∈ stepsTaken [Event.CreateMutex "Raingame", Event.SetCursor,
      Event.getdiskfree, Event.cout storageFailureLine] := by
  refine ⟨by decide, by decide, by decide⟩

/-- What a first failure at the storage check says about the steps. -/
theorem firstFailure_storage (debug : Bool) (env : Env)
    (hf : firstFailure debug env = some Step.storage) :
    stepOk debug env Step.instanceGuard = true ∧ stepOk debug env Step.storage = false := by
  cases h1 : stepOk debug env Step.instanceGuard <;>
    cases h2 : stepOk debug env Step.storage <;>
    simp [firstFailure, stepOrder, h1, h2] at hf ⊢

/-- What a first failure at the CPU check says about the steps. -/
theorem firstFailure_cpuSpeed (debug : Bool) (env : Env)
    (hf : firstFailure debug env = some Step.cpuSpeed) :
    stepOk debug env Step.instanceGuard = true ∧ stepOk debug env Step.storage = true ∧
    stepOk debug env Step.cpuSpeed = false := by
  cases h1 : stepOk debug env Step.instanceGuard <;>
    cases h2 : stepOk debug env Step.storage <;>
    cases h3 : stepOk debug env Step.cpuSpeed <;>
    simp [firstFailure, stepOrder, h1, h2, h3] at hf ⊢

/-- C9 (amended): in every run of `InitInstance` the instance guard, where it
is compiled in (no `_DEBUG`), is the first thing executed: the run opens with
`CreateMutex`; under `_DEBUG` the guard is never invoked.  The pre-flight checks
come next, after `SetCursor(NULL)`: storage, then CPU speed, and only then the
first other subsystem call, `RegisterEngineEvents`.  So when a pre-flight check
is the first step to fail, `InitInstance` returns false with the state
untouched, and what has run is the guard (already invoked, and passed),
`SetCursor` and the pre-flight checks up to the failing one, nothing else. -/
theorem InitInstance_guard_then_preflight (debug : Bool) (env : Env) (hInstance : Nat)
    (hWnd : Option HWND) (screenWidth screenHeight : Nat)
    (hc : clusterBytes env.disk ≠ 0) :
    ∃ r a t,
      InitInstance debug env hInstance hWnd screenWidth screenHeight
        GameCodeApp.GameCodeApp = some (r, a, t) ∧
      (debug = false → t.head? = some (Event.CreateMutex env.title)) ∧
      (debug = true → Step.instanceGuard ∉ stepsTaken t) ∧
      (firstFailure debug env = some Step.storage →
        r = false ∧ a = GameCodeApp.GameCodeApp ∧
        stepsTaken t = stepsThrough debug Step.storage ∧
        ∃ st, CheckStorage env.disk (10 * MEGABYTE) = some (false, st) ∧
          t = guardEvents debug env ++ [Event.SetCursor] ++ st) ∧
      (firstFailure debug env = some Step.cpuSpeed →
        r = false ∧ a = GameCodeApp.GameCodeApp ∧
        stepsTaken t = stepsThrough debug Step.cpuSpeed ∧
        ∃ st, CheckStorage env.disk (10 * MEGABYTE) = some (true, st) ∧
          t = guardEvents debug env ++ [Event.SetCursor] ++ st ++
            (ReadCPUSpeed env.registry).2) ∧
      (stepOk debug env Step.instanceGuard = true → stepOk debug env Step.storage = true →
        stepOk debug env Step.cpuSpeed = true →
        ∃ st, CheckStorage env.disk (10 * MEGABYTE) = some (true, st) ∧
          (guardEvents debug env ++ [Event.SetCursor] ++ st ++ (ReadCPUSpeed env.registry).2 ++
            [Event.RegisterEngineEvents]) <+: t) := by
  obtain ⟨sb, st, hs⟩ := CheckStorage_isSome env.disk (10 * MEGABYTE) hc
  obtain ⟨r, a, t, hrun, hok, hfail, hhead, hpre⟩ :=
    InitInstance_run debug env hInstance hWnd screenWidth screenHeight hc
  have hk2 : stepOk debug env Step.storage = sb := by simp [stepOk, hs]
  refine ⟨r, a, t, hrun, hhead, ?_, ?_, ?_, ?_⟩
  · intro hd
    subst hd
    cases hf : firstFailure true env with
    | none =>
      rw [(hok hf).2.2]
      decide
    | some s =>
      rw [(hfail s hf).2.2.2.2.1]
      cases s <;> decide
  · intro hf
    obtain ⟨hg, hsf⟩ := firstFailure_storage debug env hf
    rw [hk2] at hsf
    subst hsf
    have h := (InitInstance_preflight_fail debug env hInstance hWnd screenWidth screenHeight
      false st hg hs).1 rfl
    rw [hrun] at h
    simp only [Option.some.injEq, Prod.mk.injEq] at h
    exact ⟨h.1, h.2.1, (hfail _ hf).2.2.2.2.1, st, hs, h.2.2⟩
  · intro hf
    obtain ⟨hg, hsf, hcf⟩ := firstFailure_cpuSpeed debug env hf
    rw [hk2] at hsf
    subst hsf
    have hcpu : (ReadCPUSpeed env.registry).1 < 1300 := by
      simpa [stepOk] using hcf
    have h := (InitInstance_preflight_fail debug env hInstance hWnd screenWidth screenHeight
      true st hg hs).2 rfl hcpu
    rw [hrun] at h
    simp only [Option.some.injEq, Prod.mk.injEq] at h
    exact ⟨h.1, h.2.1, (hfail _ hf).2.2.2.2.1, st, hs, h.2.2⟩
  · intro hg hsok hcok
    rw [hk2] at hsok
    subst hsok
    exact ⟨st, hs, hpre hg (by rw [hk2]) hcok st hs⟩

/-- Witness for `InitInstance_guard_then_preflight`: too little disk space,
release build. -/
theorem InitInstance_guard_then_preflight_witness :
    clusterBytes lowDiskEnv.disk ≠ 0 ∧
    ∃ r a t,
      InitInstance false lowDiskEnv 1 none 800 600 GameCodeApp.GameCodeApp = some (r, a, t) ∧
      (false = false → t.head? = some (Event.CreateMutex lowDiskEnv.title)) ∧
      (false = true → Step.instanceGuard ∉ stepsTaken t) ∧
      (firstFailure false lowDiskEnv = some Step.storage →
        r = false ∧ a = GameCodeApp.GameCodeApp ∧
        stepsTaken t = stepsThrough false Step.storage ∧
        ∃ st, CheckStorage lowDiskEnv.disk (10 * MEGABYTE) = some (false, st) ∧
          t = guardEvents false lowDiskEnv ++ [Event.SetCursor] ++ st) ∧
      (firstFailure false lowDiskEnv = some Step.cpuSpeed →
        r = false ∧ a = GameCodeApp.GameCodeApp ∧
        stepsTaken t = stepsThrough false Step.cpuSpeed ∧
        ∃ st, CheckStorage lowDiskEnv.disk (10 * MEGABYTE) = some (true, st) ∧
          t = guardEvents false lowDiskEnv ++ [Event.SetCursor] ++ st ++
            (ReadCPUSpeed lowDiskEnv.registry).2) ∧
      (stepOk false lowDiskEnv Step.instanceGuard = true →
        stepOk false lowDiskEnv Step.storage = true →
        stepOk false lowDiskEnv Step.cpuSpeed = true →
        ∃ st, CheckStorage lowDiskEnv.disk (10 * MEGABYTE) = some (true, st) ∧
          (guardEvents false lowDiskEnv ++ [Event.SetCursor] ++ st ++
            (ReadCPUSpeed lowDiskEnv.registry).2 ++ [Event.RegisterEngineEvents]) <+: t) :=
  ⟨by decide, InitInstance_guard_then_preflight false lowDiskEnv 1 none 800 600 (by decide)⟩

/-! ## Theorems on OnClose -/

/-- C5: teardown is a no-op on what was never constructed and is idempotent.
On an orchestrator on which no subsystem was constructed (the owned pointers
null, no window, no scripting state) `OnClose` performs zero destroy operations,
returns 0 and leaves the state as it is: it deletes nothing and makes only the
five calls it does not guard itself, each of them a no-op there.  For every
orchestrator state, a second `OnClose` right after a first performs zero destroy
operations, returns 0 and leaves the state unchanged.  The null-safety of
`SAFE_DELETE` and of the five callees is the one the spec gives them; their
bodies are not in the sources. -/
theorem OnClose_idempotent (a : GameCodeApp) (sc : Scripting) :
    ((OnClose (unbuilt a) noScripting).destroyed = [] ∧
     (OnClose (unbuilt a) noScripting).result = 0 ∧
     (OnClose (unbuilt a) noScripting).app = unbuilt a ∧
     (OnClose (unbuilt a) noScripting).scripting = noScripting ∧
     (OnClose (unbuilt a) noScripting).calls = unguardedTeardown none) ∧
    ((OnClose (OnClose a sc).app (OnClose a sc).scripting).destroyed = [] ∧
     (OnClose (OnClose a sc).app (OnClose a sc).scripting).result = 0 ∧
     (OnClose (OnClose a sc).app (OnClose a sc).scripting).app = (OnClose a sc).app ∧
     (OnClose (OnClose a sc).app (OnClose a sc).scripting).scripting =
       (OnClose a sc).scripting ∧
     (OnClose (OnClose a sc).app (OnClose a sc).scripting).calls = unguardedTeardown none) := by
  simp [OnClose, SAFE_DELETE, destroyStep, unbuilt, noScripting, unguardedTeardown]

/-- C6: for every fully constructed state (`m_pGame`, `m_pBaseSocketManager`,
`m_pEventManager` and `m_ResCache` all non-null), `OnClose` performs exactly
these operations, in this order: delete the game, destroy the window, tear down
the network event forwarder, delete the socket manager, delete the event
manager, unregister the script bindings (`BaseScriptComponent`, then
`ScriptExports`), destroy the Lua state, delete the resource cache.  Afterwards
the four pointers are null and the result is 0.  What is destroyed is, in the
same order, every one of these subsystems that existed. -/
theorem OnClose_order (a : GameCodeApp) (sc : Scripting)
    (h1 : a.m_pGame = true) (h2 : a.m_pBaseSocketManager = true)
    (h3 : a.m_pEventManager = true) (h4 : a.m_ResCache = true) :
    (OnClose a sc).calls =
      [Event.delete_pGame, Event.DestroyWindow a.hwnd, Event.VDestroyNetworkEventForwarder,
       Event.delete_pBaseSocketManager, Event.delete_pEventManager,
       Event.UnregisterScriptFunctions, Event.ScriptExportsUnregister,
       Event.LuaStateManagerDestroy, Event.delete_ResCache] ∧
    (OnClose a sc).app.m_pGame = false ∧ (OnClose a sc).app.m_pBaseSocketManager = false ∧
    (OnClose a sc).app.m_pEventManager = false ∧ (OnClose a sc).app.m_ResCache = false ∧
    (OnClose a sc).result = 0 ∧
    (OnClose a sc).destroyed =
      [Subsystem.game] ++ destroyStep a.hwnd.isSome Subsystem.window ++
      destroyStep a.m_pNetworkEventForwarder Subsystem.networkEventForwarder ++
      [Subsystem.socketManager, Subsystem.eventManager] ++
      destroyStep sc.scriptFunctions Subsystem.scriptFunctions ++
      destroyStep sc.scriptExports Subsystem.scriptExports ++
      destroyStep sc.luaState Subsystem.luaState ++ [Subsystem.resCache] := by
  simp [OnClose, SAFE_DELETE, destroyStep, h1, h2, h3, h4]

/-- Witness for `OnClose_order`: a state with everything built. -/
theorem OnClose_order_witness :
    builtApp.m_pGame = true ∧ builtApp.m_pBaseSocketManager = true ∧
    builtApp.m_pEventManager = true ∧ builtApp.m_ResCache = true ∧
    ((OnClose builtApp fullScripting).calls =
      [Event.delete_pGame, Event.DestroyWindow builtApp.hwnd,
       Event.VDestroyNetworkEventForwarder,
       Event.delete_pBaseSocketManager, Event.delete_pEventManager,
       Event.UnregisterScriptFunctions, Event.ScriptExportsUnregister,
       Event.LuaStateManagerDestroy, Event.delete_ResCache] ∧
    (OnClose builtApp fullScripting).app.m_pGame = false ∧
    (OnClose builtApp fullScripting).app.m_pBaseSocketManager = false ∧
    (OnClose builtApp fullScripting).app.m_pEventManager = false ∧
    (OnClose builtApp fullScripting).app.m_ResCache = false ∧
    (OnClose builtApp fullScripting).result = 0 ∧
    (OnClose builtApp fullScripting).destroyed =
      [Subsystem.game] ++ destroyStep builtApp.hwnd.isSome Subsystem.window ++
      destroyStep builtApp.m_pNetworkEventForwarder Subsystem.networkEventForwarder ++
      [Subsystem.socketManager, Subsystem.eventManager] ++
      destroyStep fullScripting.scriptFunctions Subsystem.scriptFunctions ++
      destroyStep fullScripting.scriptExports Subsystem.scriptExports ++
      destroyStep fullScripting.luaState Subsystem.luaState ++ [Subsystem.resCache]) :=
  ⟨by decide, by decide, by decide, by decide,
    OnClose_order builtApp fullScripting (by decide) (by decide) (by decide) (by decide)⟩

/-! ## Theorems on FlashWhileMinimized -/

/-- The messages dispatched and translated by the loop are the retrieved ones
that are not the close command. -/
theorem flashLoop_dispatched (then_ : Nat) (polls : List Poll) :
    (flashLoop then_ polls).2.filterMap Event.dispatched =
      (retrieved polls).filter (fun m => !isCloseCommand m) ∧
    (flashLoop then_ polls).2.filterMap Event.translated =
      (retrieved polls).filter (fun m => !isCloseCommand m) := by
  induction polls generalizing then_ with
  | nil => simp [flashLoop, retrieved]
  | cons p rest ih =>
    cases p with
    | message msg iconic =>
      obtain ⟨ih1, ih2⟩ := ih then_
      by_cases hclose : msg.message ≠ WM_SYSCOMMAND ∨ msg.wParam ≠ SC_CLOSE
      · have hc : isCloseCommand msg = false := by
          simp only [isCloseCommand, Bool.and_eq_false_imp, beq_iff_eq]
          intro h
          rcases hclose with h' | h'
          · exact absurd h h'
          · simpa using h'
        cases iconic <;>
          simp [flashLoop, retrieved, hclose, hc, Event.dispatched, Event.translated, ih1, ih2,
            List.filterMap_append]
      · have hc : isCloseCommand msg = true := by
          simp only [not_or, not_not] at hclose
          simp [isCloseCommand, hclose.1, hclose.2]
        cases iconic <;>
          simp [flashLoop, retrieved, hclose, hc, Event.dispatched, Event.translated, ih1, ih2,
            List.filterMap_append]
    | idle now =>
      obtain ⟨ih1, ih2⟩ := ih now
      obtain ⟨ih3, ih4⟩ := ih then_
      simp only [flashLoop, retrieved]
      split_ifs <;> simp [Event.dispatched, Event.translated, ih1, ih2, ih3, ih4]

/-- C8: in `FlashWhileMinimized`, entered with a window that is iconified, for
every sequence of loop turns: the messages passed to `DispatchMessage`, and
those passed to `TranslateMessage`, are exactly the retrieved messages that are
not the close system command (`WM_SYSCOMMAND` with `wParam` `SC_CLOSE`), in
order; no close command is ever dispatched; and a close command received while
the window stays iconified changes nothing: the loop goes on as if it had not
been received. -/
theorem FlashWhileMinimized_dispatch (a : GameCodeApp) (h : HWND) (now : Nat)
    (polls : List Poll) (ha : a.hwnd = some h) :
    (FlashWhileMinimized a true now polls).2.filterMap Event.dispatched =
      (retrieved polls).filter (fun m => !isCloseCommand m) ∧
    (FlashWhileMinimized a true now polls).2.filterMap Event.translated =
      (retrieved polls).filter (fun m => !isCloseCommand m) ∧
    (∀ m ∈ (FlashWhileMinimized a true now polls).2.filterMap Event.dispatched,
      isCloseCommand m = false) ∧
    (∀ close, isCloseCommand close = true →
      FlashWhileMinimized a true now (Poll.message close true :: polls) =
        FlashWhileMinimized a true now polls) := by
  obtain ⟨h1, h2⟩ := flashLoop_dispatched now polls
  have e1 : (FlashWhileMinimized a true now polls).2.filterMap Event.dispatched =
      (retrieved polls).filter (fun m => !isCloseCommand m) := by
    simp [FlashWhileMinimized, ha, Event.dispatched, h1]
  refine ⟨e1, ?_, ?_, ?_⟩
  · simp [FlashWhileMinimized, ha, Event.translated, h2]
  · intro m hm
    rw [e1] at hm
    simpa using (List.mem_filter.mp hm).2
  · intro close hclose
    simp only [isCloseCommand, Bool.and_eq_true, beq_iff_eq] at hclose
    simp [FlashWhileMinimized, ha, flashLoop, hclose.1, hclose.2]

/-- Witness for `FlashWhileMinimized_dispatch`: a close command, an idle turn,
an ordinary message, then a message after which the window is restored. -/
theorem FlashWhileMinimized_dispatch_witness :
    builtApp.hwnd = some 7 ∧
    ((FlashWhileMinimized builtApp true 0 samplePolls).2.filterMap Event.dispatched =
      (retrieved samplePolls).filter (fun m => !isCloseCommand m) ∧
    (FlashWhileMinimized builtApp true 0 samplePolls).2.filterMap Event.translated =
      (retrieved samplePolls).filter (fun m => !isCloseCommand m) ∧
    (∀ m ∈ (FlashWhileMinimized builtApp true 0 samplePolls).2.filterMap Event.dispatched,
      isCloseCommand m = false) ∧
    (∀ close, isCloseCommand close = true →
      FlashWhileMinimized builtApp true 0 (Poll.message close true :: samplePolls) =
        FlashWhileMinimized builtApp true 0 samplePolls)) :=
  ⟨by decide, FlashWhileMinimized_dispatch builtApp 7 0 samplePolls (by decide)⟩

/-! ## Theorems on LoadStrings -/

/-- Lookup after an assignment. -/
theorem mapFind_mapAssign {κ ν : Type} [DecidableEq κ] (m : List (κ × ν)) (k k2 : κ) (v : ν) :
    mapFind (mapAssign m k v) k2 = if k = k2 then some v else mapFind m k2 := by
  unfold mapFind mapAssign
  by_cases h : k = k2
  · simp [h]
  · simp only [h, if_false, List.find?_cons, decide_False]
    rw [List.find?_filter]
    congr 1
    congr 1
    funext p
    by_cases hp : p.1 = k2
    · have h3 : ¬ k2 = k := fun h2 => h h2.symm
      simp [hp, h3]
    · simp [hp]

/-- One child element changes the two maps as its attributes say. -/
theorem LoadStrings_elem_maps (M : StringHelpers) (a : GameCodeApp) (e : TiXmlElement)
    (hconv : ∀ (s : CStr) (n : Nat), s.length < n → M.AnsiToWideCch s n = s)
    (he : fitsBuffers e = true) (k : CStr) :
    mapFind (LoadStrings_elem M a e).m_textResource k =
      (if e.attr_id = some k ∧ e.attr_value.isSome then e.attr_value
       else mapFind a.m_textResource k) ∧
    mapFind (LoadStrings_elem M a e).m_hotkeys k =
      (if e.attr_id = some k ∧ e.attr_value.isSome ∧ e.attr_hotkey.isSome
       then e.attr_hotkey.map (fun p => M.MapCharToKeycode (firstChar p))
       else mapFind a.m_hotkeys k) := by
  rcases e with ⟨i, v, hk⟩
  cases i with
  | none => simp [LoadStrings_elem]
  | some i =>
    cases v with
    | none => simp [LoadStrings_elem]
    | some v =>
      simp only [fitsBuffers, Bool.and_eq_true, decide_eq_true_eq] at he
      have hi : M.AnsiToWideCch i 64 = i := hconv i 64 he.1
      have hv : M.AnsiToWideCch v 1024 = v := hconv v 1024 he.2
      cases hk with
      | none =>
        simp only [LoadStrings_elem, hi, hv, mapFind_mapAssign]
        by_cases hik : i = k <;> simp [hik]
      | some hk =>
        simp only [LoadStrings_elem, hi, hv, mapFind_mapAssign]
        by_cases hik : i = k <;> simp [hik]

/-- The maps after the loop of `LoadStrings`: the last matching child decides. -/
theorem LoadStrings_fold_maps (M : StringHelpers) (children : List TiXmlElement)
    (hconv : ∀ (s : CStr) (n : Nat), s.length < n → M.AnsiToWideCch s n = s)
    (hfit : ∀ e ∈ children, fitsBuffers e = true) (a : GameCodeApp) (k : CStr) :
    mapFind (children.foldl (LoadStrings_elem M) a).m_textResource k =
      (match lastChild (fun e => decide (e.attr_id = some k ∧ e.attr_value.isSome)) children with
       | some e => e.attr_value
       | none => mapFind a.m_textResource k) ∧
    mapFind (children.foldl (LoadStrings_elem M) a).m_hotkeys k =
      (match lastChild (fun e => decide (e.attr_id = some k ∧ e.attr_value.isSome ∧
          e.attr_hotkey.isSome)) children with
       | some e => e.attr_hotkey.map (fun p => M.MapCharToKeycode (firstChar p))
       | none => mapFind a.m_hotkeys k) := by
  induction children generalizing a with
  | nil => simp [lastChild]
  | cons e rest ih =>
    have hrest : ∀ x ∈ rest, fitsBuffers x = true := fun x hx => hfit x (List.mem_cons_of_mem _ hx)
    have he : fitsBuffers e = true := hfit e (List.mem_cons_self _ _)
    obtain ⟨ih1, ih2⟩ := ih hrest (LoadStrings_elem M a e)
    obtain ⟨h1, h2⟩ := LoadStrings_elem_maps M a e hconv he k
    simp only [List.foldl_cons, ih1, ih2, lastChild, List.reverse_cons, List.find?_append]
    constructor
    · cases hr : List.find? (fun e => decide (e.attr_id = some k ∧ e.attr_value.isSome))
          rest.reverse with
      | some x => simp
      | none =>
        simp only [Option.none_or, h1]
        by_cases hp : e.attr_id = some k ∧ e.attr_value.isSome
        · simp [hp]
        · simp [hp]
    · cases hr : List.find? (fun e => decide (e.attr_id = some k ∧ e.attr_value.isSome ∧
          e.attr_hotkey.isSome)) rest.reverse with
      | some x => simp
      | none =>
        simp only [Option.none_or, h2]
        by_cases hp : e.attr_id = some k ∧ e.attr_value.isSome ∧ e.attr_hotkey.isSome
        · simp [hp]
        · simp [hp]

/-- A last child satisfying `p` exists exactly when some child satisfies `p`. -/
theorem lastChild_isSome (p : TiXmlElement → Bool) (children : List TiXmlElement) :
    (lastChild p children).isSome ↔ ∃ e ∈ children, p e = true := by
  unfold lastChild
  rw [List.find?_isSome]
  simp

/-- The last child satisfying `p` satisfies `p`. -/
theorem lastChild_sat (p : TiXmlElement → Bool) (children : List TiXmlElement)
    (e : TiXmlElement) (h : lastChild p children = some e) : p e = true := by
  unfold lastChild at h
  exact List.find?_some h

/-- The sample conversion copies a string that fits the buffer unchanged. -/
theorem sampleHelpers_fit (s : CStr) (n : Nat) (h : s.length < n) :
    sampleHelpers.AnsiToWideCch s n = s := by
  simp only [sampleHelpers]
  exact List.take_of_length_le (by omega)

/-- C4: for every sequence of children of a successfully loaded root whose ids
are shorter than 64 and values shorter than 1024 characters, `LoadStrings`
called on empty maps returns true, and afterwards, for every key `k`: the text
map holds `k` exactly when some child has id `k` and a value, and maps it to the
value of the last such child; the hotkey map holds `k` exactly when some child
has id `k`, a value and a hotkey, and maps it to `MapCharToKeycode` of the first
character of the hotkey of the last such child.  A child without id or without
value changes nothing.  `AnsiToWideCch`, which the sources do not contain, is
only assumed to copy a string that fits its buffer unchanged. -/
theorem LoadStrings_maps (xml : String → Option (List TiXmlElement))
    (ext : StringHelpers) (language : String) (a : GameCodeApp)
    (children : List TiXmlElement)
    (hconv : ∀ (s : CStr) (n : Nat), s.length < n → ext.AnsiToWideCch s n = s)
    (hroot : xml ("Strings\\" ++ language ++ ".xml") = some children)
    (hfit : ∀ e ∈ children, fitsBuffers e = true)
    (htext : a.m_textResource = []) (hhot : a.m_hotkeys = []) :
    (LoadStrings xml ext language a).1 = true ∧
    (∀ k : CStr,
      mapFind (LoadStrings xml ext language a).2.1.m_textResource k =
        (lastChild (fun e => decide (e.attr_id = some k ∧ e.attr_value.isSome))
          children).bind (fun e => e.attr_value) ∧
      ((mapFind (LoadStrings xml ext language a).2.1.m_textResource k).isSome ↔
        ∃ e ∈ children, e.attr_id = some k ∧ e.attr_value.isSome) ∧
      mapFind (LoadStrings xml ext language a).2.1.m_hotkeys k =
        (lastChild (fun e => decide (e.attr_id = some k ∧ e.attr_value.isSome ∧
          e.attr_hotkey.isSome)) children).bind
            (fun e => e.attr_hotkey.map (fun p => ext.MapCharToKeycode (firstChar p))) ∧
      ((mapFind (LoadStrings xml ext language a).2.1.m_hotkeys k).isSome ↔
        ∃ e ∈ children, e.attr_id = some k ∧ e.attr_value.isSome ∧ e.attr_hotkey.isSome)) ∧
    (∀ (b : GameCodeApp) (e : TiXmlElement), e.attr_id = none ∨ e.attr_value = none →
      LoadStrings_elem ext b e = b) := by
  have hrun : (LoadStrings xml ext language a) =
      (true, children.foldl (LoadStrings_elem ext) a,
        [Event.LoadAndReturnRootXmlElement ("Strings\\" ++ language ++ ".xml")]) := by
    simp [LoadStrings, hroot]
  refine ⟨by rw [hrun], ?_, ?_⟩
  · intro k
    obtain ⟨h1, h2⟩ := LoadStrings_fold_maps ext children hconv hfit a k
    have e1 : mapFind (LoadStrings xml ext language a).2.1.m_textResource k =
        (lastChild (fun e => decide (e.attr_id = some k ∧ e.attr_value.isSome))
          children).bind (fun e => e.attr_value) := by
      rw [hrun]
      simp only [h1, htext]
      cases lastChild (fun e => decide (e.attr_id = some k ∧ e.attr_value.isSome)) children <;>
        simp [mapFind]
    have e2 : mapFind (LoadStrings xml ext language a).2.1.m_hotkeys k =
        (lastChild (fun e => decide (e.attr_id = some k ∧ e.attr_value.isSome ∧
          e.attr_hotkey.isSome)) children).bind
            (fun e => e.attr_hotkey.map (fun p => ext.MapCharToKeycode (firstChar p))) := by
      rw [hrun]
      simp only [h2, hhot]
      cases lastChild (fun e => decide (e.attr_id = some k ∧ e.attr_value.isSome ∧
          e.attr_hotkey.isSome)) children <;>
        simp [mapFind]
    refine ⟨e1, ?_, e2, ?_⟩
    · have hiff := lastChild_isSome
        (fun e => decide (e.attr_id = some k ∧ e.attr_value.isSome)) children
      simp only [decide_eq_true_eq] at hiff
      rw [e1, ← hiff]
      cases hl : lastChild (fun e => decide (e.attr_id = some k ∧ e.attr_value.isSome))
          children with
      | none => simp
      | some e =>
        have := lastChild_sat _ _ _ hl
        simp only [decide_eq_true_eq] at this
        simpa using this.2
    · have hiff := lastChild_isSome
        (fun e => decide (e.attr_id = some k ∧ e.attr_value.isSome ∧ e.attr_hotkey.isSome))
        children
      simp only [decide_eq_true_eq] at hiff
      rw [e2, ← hiff]
      cases hl : lastChild (fun e => decide (e.attr_id = some k ∧ e.attr_value.isSome ∧
          e.attr_hotkey.isSome)) children with
      | none => simp
      | some e =>
        have := lastChild_sat _ _ _ hl
        simp only [decide_eq_true_eq] at this
        simpa using this.2.2
  · intro b e he
    rcases e with ⟨i, v, hk⟩
    rcases he with he | he
    · simp only at he
      subst he
      simp [LoadStrings_elem]
    · simp only at he
      subst he
      cases i <;> simp [LoadStrings_elem]

/-- Witness for `LoadStrings_maps`: the entry OK/OK/O and the entry BAD without
value give the text map OK -> OK and the hotkey map OK -> keycode of O. -/
theorem LoadStrings_maps_witness :
    (∀ (s : CStr) (n : Nat), s.length < n → sampleHelpers.AnsiToWideCch s n = s) ∧
    (fun _ => some sampleChildren : String → Option (List TiXmlElement))
      ("Strings\\" ++ "English" ++ ".xml") = some sampleChildren ∧
    (∀ e ∈ sampleChildren, fitsBuffers e = true) ∧
    GameCodeApp.GameCodeApp.m_textResource = [] ∧
    GameCodeApp.GameCodeApp.m_hotkeys = [] ∧
    (LoadStrings (fun _ => some sampleChildren) sampleHelpers "English"
        GameCodeApp.GameCodeApp).2.1.m_textResource = [(['O', 'K'], ['O', 'K'])] ∧
    (LoadStrings (fun _ => some sampleChildren) sampleHelpers "English"
        GameCodeApp.GameCodeApp).2.1.m_hotkeys =
      [(['O', 'K'], sampleHelpers.MapCharToKeycode 'O')] ∧
    (LoadStrings (fun _ => some sampleChildren) sampleHelpers "English"
        GameCodeApp.GameCodeApp).1 = true :=
  ⟨sampleHelpers_fit, rfl, by decide, rfl, rfl, by decide, by decide,
    (LoadStrings_maps (fun _ => some sampleChildren) sampleHelpers "English"
      GameCodeApp.GameCodeApp sampleChildren sampleHelpers_fit rfl (by decide) rfl rfl).1⟩

end Lab2
